import Mathlib

/-!
Verification development for the AppFlinger Go client SDK
(`appflinger.go`): a shallow embedding of the control-channel message
codec, the RPC dispatcher, the long-polling control-channel engine,
the UI-stream URL construction, session lifecycle and event injection,
together with theorems settling the specification claims.

Modelling conventions:
* Go byte slices are `List Nat` (each element < 256); Go strings are
  Lean `String`, and their byte form is obtained by the explicit UTF-8
  encoder `utf8Str` below.
* Go standard-library functions called by the SDK (`strconv.ParseUint`,
  `strconv.ParseFloat`, `strconv.Itoa`, `json.Marshal` of a
  `map[string]interface{}`, `url.QueryEscape`, `strings.Replace`,
  `strings.Split`, `strings.ToLower` restricted to ASCII) are modelled
  by executable Lean functions written from the Go library sources.
* `json.Unmarshal` into the request struct and the listener callbacks
  are external collaborators: the engine model is parameterised by a
  header-parse function and by a listener model, and the dispatcher
  records the listener invocations it performs as an explicit trace.
* All HTTP I/O is abstracted: a function that in Go performs a request
  either returns the URL it would contact (meaning: the request is
  issued to that URL) or an error (meaning: no request is issued).
-/

namespace Appflinger

/-! ### Bytes, UTF-8, hex -/

/-- UTF-8 encoding of a single character, as a list of byte values
(standard 1-4 byte encoding of the code point). -/
def utf8Char (c : Char) : List Nat :=
  let n := c.toNat
  if n < 0x80 then [n]
  else if n < 0x800 then [0xC0 + n / 64, 0x80 + n % 64]
  else if n < 0x10000 then [0xE0 + n / 4096, 0x80 + n / 64 % 64, 0x80 + n % 64]
  else [0xF0 + n / 262144, 0x80 + n / 4096 % 64, 0x80 + n / 64 % 64, 0x80 + n % 64]

/-- UTF-8 byte encoding of a string (Go strings are UTF-8 byte slices). -/
def utf8Str (s : String) : List Nat :=
  (s.data.map utf8Char).foldr (fun a b => a ++ b) []

/-- ASCII lower-casing of one character, as in Go `lower(c byte)`. -/
def lowerCh (c : Char) : Char :=
  if 'A' ≤ c ∧ c ≤ 'Z' then Char.ofNat (c.toNat + 32) else c

/-- ASCII lower-casing of a string: the behaviour of Go
`strings.ToLower` on ASCII input (the SDK only compares the result
against ASCII literals). -/
def goToLower (s : String) : String :=
  String.mk (s.data.map lowerCh)

/-- Lower-case hexadecimal digit, as used by Go's JSON encoder. -/
def hexDigitLower (n : Nat) : Char :=
  if n < 10 then Char.ofNat (48 + n) else Char.ofNat (87 + n)

/-- Upper-case hexadecimal digit, as used by Go's URL escaper. -/
def hexDigitUpper (n : Nat) : Char :=
  if n < 10 then Char.ofNat (48 + n) else Char.ofNat (55 + n)

/-! ### Go `strconv` models -/

/-- Model of Go `strconv.ParseUint(s, 10, 0)` (64-bit width):
a non-empty all-decimal-digit string whose value fits in 64 bits;
`none` models a returned error (syntax or range). -/
def goParseUint64 (s : String) : Option Nat :=
  let cs := s.data
  if cs = [] then none
  else if cs.all (fun c => c.isDigit) then
    let v := cs.foldl (fun a c => a * 10 + (c.toNat - 48)) 0
    if v < 2 ^ 64 then some v else none
  else none

/-- The decimal digit character for `k` (callers pass `k < 10`). -/
def digitChar10 (k : Nat) : Char :=
  if k = 0 then '0' else if k = 1 then '1' else if k = 2 then '2'
  else if k = 3 then '3' else if k = 4 then '4' else if k = 5 then '5'
  else if k = 6 then '6' else if k = 7 then '7' else if k = 8 then '8' else '9'

/-- Model of Go `strconv.Itoa` restricted to naturals: decimal digits,
most significant first.  The fuel argument (`n + 1`) strictly bounds the
number of divisions by ten. -/
def natDigsAux : Nat → Nat → List Char → List Char
  | 0, _, acc => acc
  | fuel + 1, n, acc =>
    if n < 10 then digitChar10 n :: acc
    else natDigsAux fuel (n / 10) (digitChar10 (n % 10) :: acc)

/-- Model of Go `strconv.Itoa` on naturals. -/
def itoaNat (n : Nat) : String :=
  String.mk (natDigsAux (n + 1) n [])

/-- Model of Go `strconv.Itoa` (decimal, with a leading minus sign for
negative values). -/
def itoa (i : Int) : String :=
  if i < 0 then "-" ++ itoaNat i.natAbs else itoaNat i.toNat

/-- Common prefix length of `s` with the all-lower-case `p`, ignoring
ASCII case in `s` — Go `strconv.commonPrefixLenIgnoreCase`. -/
def commonPrefixLenIgnoreCase : List Char → List Char → Nat
  | _, [] => 0
  | [], _ => 0
  | c :: cs, p :: ps =>
    if lowerCh c = p then 1 + commonPrefixLenIgnoreCase cs ps else 0

/-- Go `strconv.special`: recognises `inf`/`infinity` (optionally
signed) and `nan` prefixes; returns the number of characters consumed,
or `none` when the input is not a special value. -/
def parseFloatSpecial (cs : List Char) : Option Nat :=
  match cs with
  | [] => none
  | c :: rest =>
    if c = '+' ∨ c = '-' then
      let n := commonPrefixLenIgnoreCase rest "infinity".data
      if n = 3 ∨ n = 8 then some (1 + n) else none
    else if lowerCh c = 'i' then
      let n := commonPrefixLenIgnoreCase cs "infinity".data
      if n = 3 ∨ n = 8 then some n else none
    else if lowerCh c = 'n' then
      if commonPrefixLenIgnoreCase cs "nan".data = 3 then some 3 else none
    else none

/-- Mantissa scan of Go `strconv.readFloat`: consumes digits, at most
one dot, underscores (and hex digits when `base16`).  Returns
`(rest, consumed, sawdot, sawdigits, mantissa, fracDigits, sawUnderscore)`. -/
def rfMant (base16 : Bool) :
    List Char → Bool → Bool → Nat → Nat → Bool → Nat →
    List Char × Nat × Bool × Bool × Nat × Nat × Bool
  | [], sawdot, sawdigits, m, f, us, cnt => ([], cnt, sawdot, sawdigits, m, f, us)
  | c :: rest, sawdot, sawdigits, m, f, us, cnt =>
    if c = '_' then rfMant base16 rest sawdot sawdigits m f true (cnt + 1)
    else if c = '.' then
      if sawdot then (c :: rest, cnt, sawdot, sawdigits, m, f, us)
      else rfMant base16 rest true sawdigits m f us (cnt + 1)
    else if c.isDigit then
      rfMant base16 rest sawdot true
        (m * (if base16 then 16 else 10) + (c.toNat - 48))
        (if sawdot then f + 1 else f) us (cnt + 1)
    else if base16 ∧ 'a' ≤ lowerCh c ∧ lowerCh c ≤ 'f' then
      rfMant base16 rest sawdot true (m * 16 + ((lowerCh c).toNat - 87))
        (if sawdot then f + 1 else f) us (cnt + 1)
    else (c :: rest, cnt, sawdot, sawdigits, m, f, us)

/-- Exponent-digit scan of Go `strconv.readFloat`: consumes decimal
digits and underscores, accumulating the exponent with Go's `e < 10000`
cap.  Returns `(rest, consumed, exponent, sawUnderscore)`. -/
def rfExpDigits : List Char → Nat → Bool → Nat → List Char × Nat × Nat × Bool
  | [], e, us, cnt => ([], cnt, e, us)
  | c :: rest, e, us, cnt =>
    if c.isDigit then
      rfExpDigits rest (if e < 10000 then e * 10 + (c.toNat - 48) else e) us (cnt + 1)
    else if c = '_' then rfExpDigits rest e true (cnt + 1)
    else (c :: rest, cnt, e, us)

/-- Scanner core of Go `strconv.underscoreOK`: `saw` is the class of the
previous character (`^` start, `0` digit or base prefix, `_`
underscore, `!` other). -/
def usOKCore : List Char → Bool → Char → Bool
  | [], _, saw => saw ≠ '_'
  | c :: rest, hx, saw =>
    if c.isDigit ∨ (hx ∧ 'a' ≤ lowerCh c ∧ lowerCh c ≤ 'f') then usOKCore rest hx '0'
    else if c = '_' then (if saw = '0' then usOKCore rest hx '_' else false)
    else if saw = '_' then false
    else usOKCore rest hx '!'

/-- Go `strconv.underscoreOK`: underscores may only separate digits
(or follow a base prefix). -/
def underscoreOK (cs : List Char) : Bool :=
  let cs1 := match cs with
    | c :: rest => if c = '-' ∨ c = '+' then rest else cs
    | [] => cs
  match cs1 with
  | c0 :: c1 :: rest =>
    if c0 = '0' ∧ (lowerCh c1 = 'b' ∨ lowerCh c1 = 'o' ∨ lowerCh c1 = 'x') then
      usOKCore rest (lowerCh c1 = 'x') '0'
    else usOKCore cs1 false '^'
  | _ => usOKCore cs1 false '^'

/-- Exact overflow test for float64 conversion: the value
`m * base^E` (base 10 for decimal literals, 2 for hexadecimal ones)
rounds to infinity exactly when it is `≥ 2^1024 - 2^970`. -/
def overflowFloat64 (m : Nat) (E : Int) (base16 : Bool) : Bool :=
  let b : Nat := if base16 then 2 else 10
  let T : Nat := 2 ^ 1024 - 2 ^ 970
  if 0 ≤ E then decide (m * b ^ E.toNat ≥ T) else decide (m ≥ T * b ^ (-E).toNat)

/-- Syntactic scan of Go `strconv.readFloat` on a full string: returns
`(consumed, mantissa, exponent, isHex)` on success, where the literal's
exact value is `mantissa * 10^exponent` (decimal) respectively
`mantissa * 2^exponent` (hex); `none` when the scan rejects. -/
def readFloatScan (cs : List Char) : Option (Nat × Nat × Int × Bool) :=
  -- optional sign
  let signLen : Nat := match cs with
    | c :: _ => if c = '+' ∨ c = '-' then 1 else 0
    | [] => 0
  let cs1 := cs.drop signLen
  -- hex prefix, Go condition: i+2 < len(s) && s[i] == '0' && lower(s[i+1]) == 'x'
  let isHex : Bool :=
    decide (signLen + 2 < cs.length) &&
      (match cs1 with
       | c0 :: c1 :: _ => decide (c0 = '0' ∧ lowerCh c1 = 'x')
       | _ => false)
  let preLen := signLen + (if isHex then 2 else 0)
  let cs2 := if isHex then cs1.drop 2 else cs1
  match rfMant isHex cs2 false false 0 0 false 0 with
  | (rest3, cnt3, _, sawdigits, m, f, us1) =>
    if !sawdigits then none
    else
      let expCh : Char := if isHex then 'p' else 'e'
      match rest3 with
      | c :: restE =>
        if lowerCh c = expCh then
          match restE with
          | [] => none
          | d :: restE2 =>
            let esign : Int := if d = '-' then -1 else 1
            let sgnLen : Nat := if d = '+' ∨ d = '-' then 1 else 0
            let restE3 := if d = '+' ∨ d = '-' then restE2 else restE
            match restE3 with
            | e0 :: _ =>
              if e0.isDigit then
                match rfExpDigits restE3 0 us1 0 with
                | (_, cnt4, e, us2) =>
                  let consumed := preLen + cnt3 + 1 + sgnLen + cnt4
                  if us2 ∧ ¬underscoreOK (cs.take consumed) then none
                  else
                    let E : Int :=
                      if isHex then esign * e - 4 * f else esign * e - f
                    some (consumed, m, E, isHex)
              else none
            | [] => none
        else if isHex then none
        else
          let consumed := preLen + cnt3
          if us1 ∧ ¬underscoreOK (cs.take consumed) then none
          else some (consumed, m, (-(f : Int)), false)
      | [] =>
        if isHex then none
        else
          let consumed := preLen + cnt3
          if us1 ∧ ¬underscoreOK (cs.take consumed) then none
          else some (consumed, m, (-(f : Int)), false)

/-- Model of the success predicate of Go `strconv.ParseFloat(s, 64)`:
`true` exactly when the call returns a nil error.  Special values
(`inf`, `infinity`, `nan`, optionally signed) must span the whole
string; otherwise the literal must scan completely and its exact value
must not overflow float64 (overflow yields `ErrRange`, a non-nil
error).  Underflow to zero is not an error in Go and is accepted. -/
def goParseFloatOk (s : String) : Bool :=
  let cs := s.data
  match parseFloatSpecial cs with
  | some n => decide (n = cs.length)
  | none =>
    match readFloatScan cs with
    | none => false
    | some (i, m, E, isHex) =>
      decide (i = cs.length) && !overflowFloat64 m E isHex

set_option exponentiation.threshold 2000
set_option maxRecDepth 8192

example : goParseFloatOk "NaNx" = false := by decide
example : goParseFloatOk "nan" = true := by decide
example : goParseFloatOk "-inf" = true := by decide
example : goParseFloatOk "Infinity" = true := by decide
example : goParseFloatOk "1.5" = true := by decide
example : goParseFloatOk "-12.25e2" = true := by decide
example : goParseFloatOk "" = false := by decide
example : goParseFloatOk "1." = true := by decide
example : goParseFloatOk ".5" = true := by decide
example : goParseFloatOk "." = false := by decide
example : goParseFloatOk "1e" = false := by decide
example : goParseFloatOk "1e+5x" = false := by decide
example : goParseFloatOk "0x1p4" = true := by decide
example : goParseFloatOk "0x1" = false := by decide
example : goParseFloatOk "1_0.5" = true := by decide
example : goParseFloatOk "_1" = false := by decide
example : goParseFloatOk "1__0" = false := by decide
example : goParseUint64 "16" = some 16 := by decide
example : goParseUint64 "" = none := by decide
example : goParseUint64 "abc" = none := by decide
example : goParseUint64 "+3" = none := by decide

/-! ### Go `encoding/json` model (marshalling of the response maps)

The SDK marshals `map[string]interface{}` values whose entries are
strings or (for `payloadSize` in `marshalRPCResponse`) an `int`.
`json.Marshal` emits object keys in sorted order (byte-wise string
comparison) and HTML-escapes `<`, `>`, `&`. -/

/-- JSON values occurring in the marshalled response maps. -/
inductive GoJson where
  | str (s : String)
  | num (n : Nat)
deriving DecidableEq

/-- Go JSON string escaping (`encoding/json`, `escapeHTML=true`). -/
def jsonEscapeChar (c : Char) : String :=
  if c = '"' then "\\\""
  else if c = '\\' then "\\\\"
  else if c = '\n' then "\\n"
  else if c = '\r' then "\\r"
  else if c = '\t' then "\\t"
  else if c = '<' then "\\u003c"
  else if c = '>' then "\\u003e"
  else if c = '&' then "\\u0026"
  else if c.toNat < 0x20 then
    "\\u00" ++ String.mk [hexDigitLower (c.toNat / 16), hexDigitLower (c.toNat % 16)]
  else if c.toNat = 0x2028 then "\\u2028"
  else if c.toNat = 0x2029 then "\\u2029"
  else String.singleton c

/-- A JSON string literal: quoted and escaped. -/
def jsonQuote (s : String) : String :=
  "\"" ++ String.join (s.data.map jsonEscapeChar) ++ "\""

/-- Rendering of one JSON value. -/
def jsonRender : GoJson → String
  | .str s => jsonQuote s
  | .num n => itoaNat n

/-- Byte-wise (code-point-wise) strict ordering on character lists;
on UTF-8 data this agrees with Go's byte-wise string comparison. -/
def charsLt : List Char → List Char → Bool
  | [], [] => false
  | [], _ :: _ => true
  | _ :: _, [] => false
  | a :: as, b :: bs =>
    if a.toNat < b.toNat then true
    else if b.toNat < a.toNat then false
    else charsLt as bs

/-- Go string `<` (used by `sort.Strings` on the map keys). -/
def strLtB (a b : String) : Bool := charsLt a.data b.data

/-- Insert a key into a key-sorted association list (byte-wise string
order, as produced by `json.Marshal` for map keys). -/
def insertByKey (p : String × GoJson) :
    List (String × GoJson) → List (String × GoJson)
  | [] => [p]
  | q :: rest => if strLtB p.1 q.1 then p :: q :: rest else q :: insertByKey p rest

/-- Sort map entries by key. -/
def sortByKey (l : List (String × GoJson)) : List (String × GoJson) :=
  l.foldr insertByKey []

/-- Value lookup in the (unsorted) map representation. -/
def lookupKey (l : List (String × GoJson)) (k : String) : Option GoJson :=
  (l.find? (fun p => p.1 = k)).map (fun p => p.2)

/-- Map update `m[k] = v`: replaces an existing entry, else appends. -/
def setKey (l : List (String × GoJson)) (k : String) (v : GoJson) :
    List (String × GoJson) :=
  if (l.find? (fun p => p.1 = k)).isSome then
    l.map (fun p => if p.1 = k then (k, v) else p)
  else l ++ [(k, v)]

/-- Comma-separated concatenation. -/
def joinComma : List String → String
  | [] => ""
  | [s] => s
  | s :: r :: rest => s ++ "," ++ joinComma (r :: rest)

/-- Model of `json.Marshal` on a `map[string]interface{}` holding the
values of `GoJson`: a JSON object with keys in sorted order. -/
def jsonMarshalMap (l : List (String × GoJson)) : String :=
  "\x7b" ++
    joinComma ((sortByKey l).map (fun p => jsonQuote p.1 ++ ":" ++ jsonRender p.2)) ++
  "\x7d"

example : jsonMarshalMap [("requestId", .str "r1"), ("message", .str "")] =
    "\x7b\"message\":\"\",\"requestId\":\"r1\"\x7d" := by decide

/-! ### Message codec: `marshalRPCResponse` (`appflinger.go:461-483`) -/

/-- Bytes of the optional binary payload (`nil` slice = no bytes). -/
def payloadBytes : Option (List Nat) → List Nat
  | none => []
  | some p => p

/-- Model of `marshalRPCResponse(result, resultPayload, respErr)`.
On a nil `respErr` it sets `result="OK"`, defaults `message` to the
empty string and, when a payload is present, stores `payloadSize` as an
`int` (hence a JSON number).  On a non-nil `respErr` it sets
`result="ERROR"` and `message` to the error text.  The returned bytes
are `append(json.Marshal(result), resultPayload...)` — the payload is
appended directly after the JSON header; no `"\n\n"` terminator is
emitted anywhere in this function.  (`json.Marshal` cannot fail on
these maps, so the model always returns the byte slice.) -/
def marshalRPCResponse (result : List (String × GoJson))
    (resultPayload : Option (List Nat)) (respErr : Option String) : List Nat :=
  let result2 :=
    match respErr with
    | none =>
      let r1 := setKey result "result" (.str "OK")
      let r2 := if lookupKey r1 "message" = none then setKey r1 "message" (.str "") else r1
      match resultPayload with
      | some p => setKey r2 "payloadSize" (.num p.length)
      | none => r2
    | some msg => setKey (setKey result "result" (.str "ERROR")) "message" (.str msg)
  utf8Str (jsonMarshalMap result2) ++ payloadBytes resultPayload

/-! ### RPC dispatcher (`processRPCRequest`, `appflinger.go:485-958`) -/

/-- Go `boolToStr`. -/
def boolToStr (val : Bool) : String := if val then "1" else "0"

/-- Go `strToBool`. -/
def strToBool (val : String) : Bool :=
  val = "true" ∨ val = "yes" ∨ val = "1"

/-- The fields of the `controlChannelRequest` struct used by the
modelled services (all wire fields are strings; unset fields are the
empty string, Go's zero value). -/
structure ControlChannelRequest where
  SessionId : String := ""
  RequestId : String := ""
  InstanceId : String := ""
  Service : String := ""
  PayloadSize : String := ""
  URL : String := ""
  Time : String := ""
  Visible : String := ""
  Rate : String := ""
  Volume : String := ""
deriving DecidableEq

/-- One listener invocation performed by the dispatcher.  Parsed float
arguments are recorded by their accepted literal text (the numeric
value itself is irrelevant to the properties proved here). -/
inductive ListenerCall where
  | load (sessionId instanceId url : String)
  | cancelLoad (sessionId instanceId : String)
  | play (sessionId instanceId : String)
  | pause (sessionId instanceId : String)
  | seek (sessionId instanceId timeLit : String)
  | getPaused (sessionId instanceId : String)
  | setVisible (sessionId instanceId : String) (visible : Bool)
  | setRate (sessionId instanceId rateLit : String)
  | setVolume (sessionId instanceId volumeLit : String)
  | otherService (service sessionId instanceId : String)
deriving DecidableEq

/-- Listener model (the `AppflingerListener` collaborator): each
operation returns `none` for a nil error or `some msg` for an error
with text `msg`; queries also return their result value. -/
structure ListenerModel where
  load : String → String → String → Option String
  cancelLoad : String → String → Option String
  play : String → String → Option String
  pause : String → String → Option String
  seek : String → String → String → Option String
  getPaused : String → String → Bool × Option String
  setVisible : String → String → Bool → Option String
  setRate : String → String → String → Option String
  setVolume : String → String → String → Option String
  otherService : String → ControlChannelRequest → Option String

/-- The services of the dispatcher that are not given a field-level
model here (their branches populate service-specific result fields
which no claim examines); they are dispatched through
`ListenerModel.otherService`. -/
def otherKnownServices : List String :=
  ["getSeeking", "getDuration", "getCurrentTime", "getSeekable",
   "getNetworkState", "getReadyState", "getBuffered", "setRect",
   "addSourceBuffer", "removeSourceBuffer", "abortSourceBuffer",
   "setAppendMode", "setAppendTimestampOffset", "removeBufferRange",
   "changeSourceBufferType", "appendBuffer", "loadResource",
   "deleteResource", "requestKeySystem", "cdmCreate",
   "cdmSetServerCertificate", "cdmSessionCreate", "cdmSessionUpdate",
   "cdmSessionLoad", "cdmSessionRemove", "cdmSessionClose", "setCdm",
   "sendMessage", "onPageLoad", "onAddressBarChanged", "onTitleChanged",
   "onPageClose"]

/-- Outcome of `processRPCRequest`: the serialized response (`none`
models a nil byte slice), the returned error, and the trace of listener
invocations made.  In the model the error component is always `none`
because `marshalRPCResponse` cannot fail on the maps built here (in Go
it is non-nil only on a `json.Marshal` failure). -/
abbrev RPCOutcome := Option (List Nat) × Option String × List ListenerCall

/-- Helper assembling the common tail of every dispatcher branch:
`resp, err = marshalRPCResponse(result, resultPayload, err); return`. -/
def rpcFinish (result : List (String × GoJson)) (resultPayload : Option (List Nat))
    (respErr : Option String) (calls : List ListenerCall) : RPCOutcome :=
  (some (marshalRPCResponse result resultPayload respErr), none, calls)

/-- Model of `processRPCRequest(req, payload, appf)` for the services
the claims exercise (`load`, `cancelLoad`, `play`, `pause`, `seek`,
`getPaused`, `setVisible`, `setRate`, `setVolume`) plus the
unknown-service branch; the remaining services of the switch are
dispatched abstractly through `ListenerModel.otherService` (their
result-field population is beyond the claims proved here).  A `none`
listener models the nil-listener (test) mode, in which branches skip
the call and report defaults. -/
def processRPCRequest (req : ControlChannelRequest) (payload : List Nat)
    (appf : Option ListenerModel) : RPCOutcome :=
  let result : List (String × GoJson) := [("requestId", .str req.RequestId)]
  if req.Service = "load" then
    match appf with
    | some A => rpcFinish result none (A.load req.SessionId req.InstanceId req.URL)
        [.load req.SessionId req.InstanceId req.URL]
    | none => rpcFinish result none none []
  else if req.Service = "cancelLoad" then
    match appf with
    | some A => rpcFinish result none (A.cancelLoad req.SessionId req.InstanceId)
        [.cancelLoad req.SessionId req.InstanceId]
    | none => rpcFinish result none none []
  else if req.Service = "play" then
    match appf with
    | some A => rpcFinish result none (A.play req.SessionId req.InstanceId)
        [.play req.SessionId req.InstanceId]
    | none => rpcFinish result none none []
  else if req.Service = "pause" then
    match appf with
    | some A => rpcFinish result none (A.pause req.SessionId req.InstanceId)
        [.pause req.SessionId req.InstanceId]
    | none => rpcFinish result none none []
  else if req.Service = "seek" then
    if goParseFloatOk req.Time then
      match appf with
      | some A => rpcFinish result none (A.seek req.SessionId req.InstanceId req.Time)
          [.seek req.SessionId req.InstanceId req.Time]
      | none => rpcFinish result none none []
    else
      rpcFinish result none (some ("Failed to parse float: " ++ req.Time)) []
  else if req.Service = "getPaused" then
    match appf with
    | some A =>
      match A.getPaused req.SessionId req.InstanceId with
      | (paused, none) =>
        rpcFinish (setKey result "paused" (.str (boolToStr paused))) none none
          [.getPaused req.SessionId req.InstanceId]
      | (_, some e) =>
        rpcFinish result none (some e) [.getPaused req.SessionId req.InstanceId]
    | none => rpcFinish (setKey result "paused" (.str (boolToStr false))) none none []
  else if req.Service = "setVisible" then
    match appf with
    | some A => rpcFinish result none
        (A.setVisible req.SessionId req.InstanceId (strToBool req.Visible))
        [.setVisible req.SessionId req.InstanceId (strToBool req.Visible)]
    | none => rpcFinish result none none []
  else if req.Service = "setRate" then
    if goParseFloatOk req.Rate then
      match appf with
      | some A => rpcFinish result none (A.setRate req.SessionId req.InstanceId req.Rate)
          [.setRate req.SessionId req.InstanceId req.Rate]
      | none => rpcFinish result none none []
    else
      rpcFinish result none (some ("Failed to parse float: " ++ req.Rate)) []
  else if req.Service = "setVolume" then
    if goParseFloatOk req.Volume then
      match appf with
      | some A => rpcFinish result none (A.setVolume req.SessionId req.InstanceId req.Volume)
          [.setVolume req.SessionId req.InstanceId req.Volume]
      | none => rpcFinish result none none []
    else
      rpcFinish result none (some ("Failed to parse float: " ++ req.Volume)) []
  else if otherKnownServices.contains req.Service then
    match appf with
    | some A => rpcFinish result none (A.otherService req.Service req)
        [.otherService req.Service req.SessionId req.InstanceId]
    | none => rpcFinish result none none []
  else
    rpcFinish result none (some ("Unknown service: " ++ req.Service)) []

/-! ### Control-channel engine (`controlChannelRun`, `appflinger.go:964-1145`)

The engine long-polls; each loop iteration (i) builds the poll URL —
appending `&reset=1` and clearing the flag when `shouldReset` is set —
and POSTs the previous response bytes (nil = empty body), then (ii)
decodes the received body and computes the next state.  The HTTP
transport and `json.Unmarshal` are external: the decode step is
parameterised by the header-parse function standing for
`json.Unmarshal(body[:jsonEndPos], req)` (`none` = parse error). -/

/-- The engine's per-iteration mutable state: the reset flag and the
pending POST body (`none` models the nil slice, i.e. an empty body). -/
structure EngineState where
  shouldReset : Bool
  postMessage : Option (List Nat)
deriving DecidableEq

/-- State at entry of `controlChannelRun`: reset pending, no payload. -/
def controlChannelInitState : EngineState :=
  { shouldReset := true, postMessage := none }

/-- Stand-in for `json.Unmarshal` on the header bytes
(`body[:jsonEndPos]`, including the terminating `"\n\n"`). -/
abbrev ParseHeaderFn := List Nat → Option ControlChannelRequest

/-- Result of decoding one polled body: either the loop terminates —
returning an error and (always, on this path) sending on the `isDone`
channel — or it continues with a new state, having performed the
recorded listener calls. -/
inductive StepResult where
  | terminated (errMsg : String) (signalsDone : Bool)
  | next (st : EngineState) (calls : List ListenerCall)
deriving DecidableEq

/-- `bytes.Index(body, []byte("\n\n"))`: first index at which two
consecutive line-feed bytes occur, `none` for Go's `-1`. -/
def findNLNL : List Nat → Option Nat
  | [] => none
  | [_] => none
  | a :: b :: rest =>
    if a = 10 ∧ b = 10 then some 0
    else (findNLNL (b :: rest)).map (fun i => i + 1)

example : findNLNL (utf8Str "ab\n\ncd") = some 2 := by decide
example : findNLNL (utf8Str "abcd") = none := by decide

/-- Poll phase of one loop iteration: returns whether the poll URL
carries `&reset=1`, the POST body, and the state after the flag is
consumed (`shouldReset = false`). -/
def controlChannelPoll (st : EngineState) :
    (Bool × Option (List Nat)) × EngineState :=
  ((st.shouldReset, st.postMessage), { st with shouldReset := false })

/-- Decode phase of one loop iteration (`appflinger.go:1081-1144`),
operating on the body read from the poll response:
* no `"\n\n"` — fatal: error return, `isDone` signalled;
* `"\n\n"` at position 0 — keep-alive: drop, next POST body empty;
* header-parse failure — set the reset flag, next POST body empty;
* `payloadSize` present or trailing bytes, with an unparsable size or
  a size mismatch — skip the message, next POST body empty (the reset
  flag is not touched);
* otherwise dispatch via `processRPCRequest`; its response becomes the
  next POST body (empty on a dispatcher error). -/
def controlChannelDecode (ph : ParseHeaderFn) (appf : Option ListenerModel)
    (st : EngineState) (body : List Nat) : StepResult :=
  match findNLNL body with
  | none =>
    .terminated "Invalid response from control channel, missing end of message newlines" true
  | some 0 => .next { st with postMessage := none } []
  | some k =>
    let jsonEndPos := k + 2
    match ph (body.take jsonEndPos) with
    | none => .next { st with shouldReset := true, postMessage := none } []
    | some req =>
      let payload := body.drop jsonEndPos
      if (req.PayloadSize != "") || (payload.length != 0) then
        match goParseUint64 req.PayloadSize with
        | none => .next { st with postMessage := none } []
        | some payloadSize =>
          if payload.length ≠ payloadSize then
            .next { st with postMessage := none } []
          else
            match processRPCRequest req payload appf with
            | (resp, err, calls) =>
              .next { st with postMessage := if err = none then resp else none } calls
      else
        match processRPCRequest req payload appf with
        | (resp, err, calls) =>
          .next { st with postMessage := if err = none then resp else none } calls

/-- One full loop iteration: the reset flag sent on the poll URL,
followed by the decode of the received body from the post-poll state. -/
def controlChannelIter (ph : ParseHeaderFn) (appf : Option ListenerModel)
    (st : EngineState) (body : List Nat) : Bool × StepResult :=
  match controlChannelPoll st with
  | ((resetSent, _), st2) => (resetSent, controlChannelDecode ph appf st2 body)

/-! ### `strings.Replace` and `replaceVars` -/

/-- Whether `pat` is a leading segment of `s`. -/
def startsWithList (pat s : List Char) : Bool :=
  match pat, s with
  | [], _ => true
  | _ :: _, [] => false
  | p :: ps, c :: cs => p = c && startsWithList ps cs

/-- Fuelled scanner of Go `strings.Replace(s, old, new, -1)`:
left-to-right, non-overlapping, greedy.  The fuel bounds the number of
consumed characters; `s.length` is always sufficient. -/
def replaceGo (pat v : List Char) : Nat → List Char → List Char
  | _, [] => []
  | 0, s => s
  | fuel + 1, c :: rest =>
    if startsWithList pat (c :: rest) then
      v ++ replaceGo pat v fuel (rest.drop (pat.length - 1))
    else
      c :: replaceGo pat v fuel rest

/-- Model of Go `strings.Replace(s, pat, v, -1)` for a non-empty
pattern (the SDK only substitutes non-empty `${...}` tokens). -/
def strReplaceAll (s pat v : String) : String :=
  String.mk (replaceGo pat.data v.data s.data.length s.data)

example : strReplaceAll "a${X}b${X}" "${X}" "12" = "a12b12" := by decide
example : strReplaceAll "a${X}b" "${Y}" "12" = "a${X}b" := by decide

/-- Go `replaceVars(str, vars, vals)`: sequentially replaces each
variable by the corresponding value. -/
def replaceVars (str : String) : List String → List String → String
  | v :: vs, w :: ws => replaceVars (strReplaceAll str v w) vs ws
  | _, _ => str

/-! ### `url.QueryEscape` -/

/-- Bytes that `url.QueryEscape` leaves unescaped: ASCII alphanumerics
and `-`, `_`, `.`, `~`. -/
def queryUnreserved (b : Nat) : Bool :=
  (48 ≤ b ∧ b ≤ 57) ∨ (65 ≤ b ∧ b ≤ 90) ∨ (97 ≤ b ∧ b ≤ 122) ∨
    b = 45 ∨ b = 95 ∨ b = 46 ∨ b = 126

/-- Escape one byte as `url.QueryEscape` does: kept verbatim when
unreserved, space becomes `+`, anything else `%XX` (upper-case hex). -/
def queryEscapeByte (b : Nat) : List Char :=
  if queryUnreserved b then [Char.ofNat b]
  else if b = 32 then ['+']
  else ['%', hexDigitUpper (b / 16), hexDigitUpper (b % 16)]

/-- Model of Go `url.QueryEscape` (applied byte-wise to the UTF-8
encoding of the string). -/
def queryEscape (s : String) : String :=
  String.mk (((utf8Str s).map queryEscapeByte).foldr (fun a b => a ++ b) [])

example : queryEscape "a b/c" = "a+b%2Fc" := by decide

/-- Decidable equality for `Except` results (used to state and decide
facts about the fallible session operations). -/
instance exceptDecEq {ε α : Type} [DecidableEq ε] [DecidableEq α] :
    DecidableEq (Except ε α)
  | .error e, .error f =>
    if h : e = f then .isTrue (by rw [h])
    else .isFalse (by intro hh; injection hh; exact h (by assumption))
  | .error _, .ok _ => .isFalse (by intro h; cases h)
  | .ok _, .error _ => .isFalse (by intro h; cases h)
  | .ok a, .ok b =>
    if h : a = b then .isTrue (by rw [h])
    else .isFalse (by intro hh; injection hh; exact h (by assumption))

/-! ### Session data model and URL templates -/

/-- The session-context fields the claims depend on.  The listener
handle, the cookie jar and the three shutdown channels of the Go struct
are I/O resources and are not part of the pure model; `isUIStreaming`
is the streaming flag. -/
structure SessionContext where
  SessionId : String
  ServerProtocolHost : String
  isUIStreaming : Bool
deriving DecidableEq

def _SESSION_START_URL : String :=
  "${PROTHOST}/osb/session/start?browser_url=${BURL}"

def _SESSION_STOP_URL : String :=
  "${PROTHOST}/osb/session/stop?session_id=${SID}"

def _SESSION_EVENT_URL : String :=
  "${PROTHOST}/osb/session/event?session_id=${SID}&type=${TYPE}"

def _SESSION_CONTROL_URL : String :=
  "${PROTHOST}/osb/session/control?session_id=${SID}"

def _SESSION_UI_URL : String :=
  "${PROTHOST}/osb/session/ui?session_id=${SID}&fmt=${FMT}&ts_discon=${TSDISCON}"

/-- Fuelled scanner of Go `strings.Split` for a non-empty separator:
`acc` holds the current field in reverse. -/
def splitGo (sep : List Char) : Nat → List Char → List Char → List (List Char)
  | _, acc, [] => [acc.reverse]
  | 0, acc, s => [acc.reverse ++ s]
  | fuel + 1, acc, c :: rest =>
    if startsWithList sep (c :: rest) then
      acc.reverse :: splitGo sep fuel [] (rest.drop (sep.length - 1))
    else splitGo sep fuel (c :: acc) rest

/-- Model of Go `strings.Split(s, sep)` for a non-empty separator. -/
def goSplit (s sep : String) : List String :=
  (splitGo sep.data s.data.length [] s.data).map String.mk

example : goSplit "jpeg;png" ";" = ["jpeg", "png"] := by decide
example : goSplit "jpeg" ";" = ["jpeg"] := by decide
example : goSplit "a;;b" ";" = ["a", "", "b"] := by decide

/-- Membership test of `_ALLOWED_UI_VIDEO_FMT`. -/
def _ALLOWED_UI_VIDEO_FMT (fm : String) : Bool :=
  fm = "mp2t;h264" ∨ fm = "mp4;h264" ∨ fm = "webm;vp8" ∨ fm = "webm;vp9" ∨
    fm = "mpd;mp2" ∨ fm = "mpd;mp4" ∨ fm = "mpd;webm"

/-- Membership test of `_ALLOWED_UI_IMAGE_FMT`. -/
def _ALLOWED_UI_IMAGE_FMT (fm : String) : Bool :=
  fm = "png" ∨ fm = "jpeg" ∨ fm = "jpeg;jpeg" ∨ fm = "jpeg;png" ∨
    fm = "jpeg;png8" ∨ fm = "jpeg;png32"

/-- Model of `isImageFormat(fmt)` (`appflinger.go:1440-1453`): for an
allowed image format the format is split at `";"`; a part count other
than two yields the error `"Invalid format: <fmt>"` (so the single-token
formats are rejected here); otherwise the image and alpha tokens are
returned.  Non-image formats yield `(false, "", "")` with a nil error. -/
def isImageFormat (fm : String) : Except String (Bool × String × String) :=
  if _ALLOWED_UI_IMAGE_FMT fm then
    let fmtParts := goSplit fm ";"
    if fmtParts.length ≠ 2 then .error ("Invalid format: " ++ fm)
    else
      let imgFormat := fmtParts.headD ""
      let alphaFormat := if fmtParts.length > 1 then (fmtParts.drop 1).headD "" else ""
      .ok (true, imgFormat, alphaFormat)
  else .ok (false, "", "")

/-- Model of `SessionGetUIURL(ctx, fmt, tsDiscon, bitrate)`
(`appflinger.go:1457-1498`).  An `.ok` value is the constructed UI
stream URL; `.error` carries the returned error text. -/
def SessionGetUIURL (ctx : SessionContext) (fm : String) (tsDiscon : Bool)
    (bitrate : Int) : Except String String :=
  if ¬_ALLOWED_UI_VIDEO_FMT fm ∧ ¬_ALLOWED_UI_IMAGE_FMT fm then
    .error ("Invalid format: " ++ fm)
  else
    match isImageFormat fm with
    | .error e => .error e
    | .ok (isImageStream, imgFormat, alphaFormat) =>
      let uri := _SESSION_UI_URL
      let uri := if isImageStream ∧ alphaFormat ≠ "" then uri ++ "&alpha=" ++ alphaFormat else uri
      let uri := if bitrate > 0 then uri ++ "&bitrate=${BITRATE}" else uri
      let tsDisconStr := if tsDiscon then "1" else "0"
      .ok (replaceVars uri
        ["${PROTHOST}", "${SID}", "${FMT}", "${TSDISCON}", "${BITRATE}"]
        [ctx.ServerProtocolHost, queryEscape ctx.SessionId, imgFormat,
         tsDisconStr, itoa bitrate])

/-- Model of `SessionUIStreamStart(ctx, format, tsDiscon, bitrate)`
(`appflinger.go:1843-1859`).  `.ok (ctx2, uri)` means the streaming
goroutine is spawned on `uri` with the flag now set; `.error` means
nothing is started and the context is unchanged. -/
def SessionUIStreamStart (ctx : SessionContext) (format : String)
    (tsDiscon : Bool) (bitrate : Int) : Except String (SessionContext × String) :=
  match SessionGetUIURL ctx format tsDiscon bitrate with
  | .error e => .error e
  | .ok uri =>
    if ctx.isUIStreaming then .error "UI is already streaming"
    else .ok ({ ctx with isUIStreaming := true }, uri)

/-- Model of `SessionUIStreamStop(ctx)` (`appflinger.go:1862-1869`).
`.ok` means `shouldStopUI` is signalled and `isDone` awaited; `.error`
means nothing is signalled. -/
def SessionUIStreamStop (ctx : SessionContext) : Except String Unit :=
  if ¬ctx.isUIStreaming then .error "UI is not streaming"
  else .ok ()

/-- Model of `SessionSendEvent(ctx, eventType, code, char, x, y)`
(`appflinger.go:1398-1438`).  `.ok uri` means a GET is issued to `uri`;
`.error` means no HTTP request is made.  Note that the source
substitutes `codeString` (the decimal rendering of `code`) for both
`${KEYCODE}` and `${CHAR}`. -/
def SessionSendEvent (ctx : SessionContext) (eventType : String)
    (code : Int) (char : Int) (x y : Int) : Except String String :=
  let lowered := goToLower eventType
  if lowered = "key" ∨ lowered = "keydown" ∨ lowered = "keyup" then
    let uri := _SESSION_EVENT_URL ++ "&code=${KEYCODE}"
    let uri := if char > 0 then uri ++ "&char=${CHAR}" else uri
    let codeString := itoa code
    .ok (replaceVars uri
      ["${PROTHOST}", "${SID}", "${TYPE}", "${KEYCODE}", "${CHAR}", "${X}", "${Y}"]
      [ctx.ServerProtocolHost, queryEscape ctx.SessionId, lowered,
       codeString, codeString, itoa x, itoa y])
  else if lowered = "click" then
    let uri := _SESSION_EVENT_URL ++ "&x=${X}&y=${Y}"
    let uri := if char > 0 then uri ++ "&char=${CHAR}" else uri
    let codeString := itoa code
    .ok (replaceVars uri
      ["${PROTHOST}", "${SID}", "${TYPE}", "${KEYCODE}", "${CHAR}", "${X}", "${Y}"]
      [ctx.ServerProtocolHost, queryEscape ctx.SessionId, lowered,
       codeString, codeString, itoa x, itoa y])
  else
    .error ("Invalid event type: " ++ lowered)

/-! ### `SessionStart` (`appflinger.go:1274-1351`) -/

/-- The struct parsed from the session-start response. -/
structure SessionStartResp where
  SessionID : String
deriving DecidableEq

/-- Model of the start-URL construction of `SessionStart` (steps 1-2:
conditional query parameters, then variable substitution). -/
def sessionStartURL (serverProtocolHost sessionId browserURL : String)
    (pullMode isVideoPassthru : Bool) (browserUIOutputURL videoStreamURL : String)
    (width height : Int) : String :=
  let uri := _SESSION_START_URL
  let uri := if ¬isVideoPassthru then uri ++ "&video_stream_uri=${VURL}" else uri
  let uri := if pullMode then uri ++ "&browser_ui_video_pull=yes"
             else uri ++ "&browser_ui_output_url=${UURL}"
  let uri := if sessionId ≠ "" then uri ++ "&session_id=${SID}" else uri
  let uri := if width > 0 ∧ width ≤ 3840 then uri ++ "&width=${WIDTH}" else uri
  let uri := if height > 0 ∧ height ≤ 2160 then uri ++ "&height=${HEIGHT}" else uri
  replaceVars uri
    ["${PROTHOST}", "${BURL}", "${VURL}", "${UURL}", "${SID}", "${WIDTH}", "${HEIGHT}"]
    [serverProtocolHost, queryEscape browserURL, queryEscape videoStreamURL,
     queryEscape browserUIOutputURL, queryEscape sessionId, itoa width, itoa height]

/-- Externally observable actions performed by `SessionStart` after the
start request succeeds, in program order. -/
inductive SessionAction where
  | registerSession (sessionId : String)
  | spawnControlChannel (sessionId : String)
deriving DecidableEq

/-- Result of `SessionStart`: the returned context and error, the
session registry (`sessionIdToCtx`) after the call, and the ordered
actions performed. -/
structure SessionStartOut where
  ctx : Option SessionContext
  err : Option String
  registry : List (String × SessionContext)
  actions : List SessionAction
deriving DecidableEq

/-- Model of `SessionStart` from the point the start request completes
(`appflinger.go:1330-1350`): `apiResult` is the outcome of
`apiReq` — the HTTP GET on the start URL combined with the JSON
decoding of its body.  On error, a nil context and the error are
returned, the registry is untouched and no goroutine is spawned.  On
success the context is built, registered in `sessionIdToCtx` under the
server-assigned session id, and only then is the control-channel
goroutine spawned. -/
def SessionStart (apiResult : Except String SessionStartResp)
    (registry : List (String × SessionContext))
    (serverProtocolHost : String) : SessionStartOut :=
  match apiResult with
  | .error e => { ctx := none, err := some e, registry := registry, actions := [] }
  | .ok resp =>
    let c : SessionContext :=
      { SessionId := resp.SessionID, ServerProtocolHost := serverProtocolHost,
        isUIStreaming := false }
    { ctx := some c, err := none,
      registry := (resp.SessionID, c) :: registry,
      actions := [.registerSession resp.SessionID, .spawnControlChannel resp.SessionID] }

/-! ### H.264 bitstream assembly (`pktToBitstream`, `appflinger.go:1513-1535`) -/

/-- The codec discrimination made by `pktToBitstream`
(`videoCodecData.Type() == av.H264`). -/
inductive AVCodecType where
  | h264
  | other
deriving DecidableEq

/-- The SPS and PPS byte slices of `h264parser.CodecData`. -/
structure H264CodecData where
  sps : List Nat
  pps : List Nat

/-- The packet fields used by `pktToBitstream`. -/
structure AVPacket where
  isKeyFrame : Bool
  data : List Nat

/-- `h264parser.StartCodeBytes`: the 4-byte Annex-B start code. -/
def startCodeBytes : List Nat := [0, 0, 0, 1]

/-- Model of `pktToBitstream(videoCodecData, pkt)`, parameterised by
the external `h264parser.SplitNALUs` (which maps the packet data to its
NAL units).  For H.264: on a key frame, start code + SPS + start code +
PPS are appended first; then every NAL unit is appended preceded by the
start code.  For any other codec the packet data is returned verbatim. -/
def pktToBitstream (ctype : AVCodecType) (cd : H264CodecData)
    (splitNALUs : List Nat → List (List Nat)) (pkt : AVPacket) : List Nat :=
  match ctype with
  | .h264 =>
    let data : List Nat := []
    let data := if pkt.isKeyFrame then
        data ++ startCodeBytes ++ cd.sps ++ startCodeBytes ++ cd.pps
      else data
    (splitNALUs pkt.data).foldl (fun d nalu => d ++ startCodeBytes ++ nalu) data
  | .other => pkt.data

/-! ### Concrete objects used by witnesses and counterexamples -/

/-- A listener returning nil errors and default values everywhere. -/
def listenerStub : ListenerModel where
  load := fun _ _ _ => none
  cancelLoad := fun _ _ => none
  play := fun _ _ => none
  pause := fun _ _ => none
  seek := fun _ _ _ => none
  getPaused := fun _ _ => (false, none)
  setVisible := fun _ _ _ => none
  setRate := fun _ _ _ => none
  setVolume := fun _ _ _ => none
  otherService := fun _ _ => none

/-- A session context that is not UI-streaming. -/
def ctxDemo : SessionContext :=
  { SessionId := "s1", ServerProtocolHost := "https://example.com",
    isUIStreaming := false }

/-- The same session context while UI streaming is active. -/
def ctxDemoStreaming : SessionContext :=
  { SessionId := "s1", ServerProtocolHost := "https://example.com",
    isUIStreaming := true }

/-- Header bytes of a concrete control-channel message declaring a
five-byte payload. -/
def headerDemoBytes : List Nat :=
  utf8Str "\x7b\"service\":\"play\",\"requestId\":\"r1\",\"payloadSize\":\"5\"\x7d\n\n"

/-- The request struct `json.Unmarshal` produces for
`headerDemoBytes`. -/
def reqDemo : ControlChannelRequest :=
  { RequestId := "r1", Service := "play", PayloadSize := "5" }

/-- A concrete stand-in for `json.Unmarshal`: parses exactly
`headerDemoBytes` to `reqDemo` and fails on everything else. -/
def phDemo : ParseHeaderFn :=
  fun bs => if bs = headerDemoBytes then some reqDemo else none

/-- A polled body whose header declares `payloadSize` 5 but which
carries only three payload bytes after the sentinel. -/
def bodyMismatchDemo : List Nat := headerDemoBytes ++ [1, 2, 3]

/-! ### Claim C1 -/

/-- C1 (code_bug evaluation).  The claim — and §4.2/§8 of the spec —
require the serialized control-channel response to be the JSON header
terminated by exactly `"\n\n"`, followed by the payload.  Evaluating
`marshalRPCResponse` shows the code emits the bare JSON header with the
payload appended directly: the two-byte sentinel never occurs in the
output, neither in the payload-free response nor before the payload
(where `payloadSize` is moreover emitted as a JSON number, not a
string).  This contradicts the sibling `marshalRPCNotification`, whose
own comment states the RPC message format requires the terminator. -/
theorem C1_marshalRPCResponse_no_sentinel :
    marshalRPCResponse [("requestId", .str "r1")] (some [7, 8, 9]) none =
      utf8Str "\x7b\"message\":\"\",\"payloadSize\":3,\"requestId\":\"r1\",\"result\":\"OK\"\x7d"
        ++ [7, 8, 9] ∧
    findNLNL (marshalRPCResponse [("requestId", .str "r1")] (some [7, 8, 9]) none) = none ∧
    marshalRPCResponse [("requestId", .str "r1")] none none =
      utf8Str "\x7b\"message\":\"\",\"requestId\":\"r1\",\"result\":\"OK\"\x7d" ∧
    findNLNL (marshalRPCResponse [("requestId", .str "r1")] none none) = none := by
  refine ⟨by decide, by decide, by decide, by decide⟩

/-! ### Claim C3 -/

/-- C3 (code_bug evaluation).  `"jpeg"` and `"png"` are members of the
allowed image-format set, yet `SessionGetUIURL` returns the error
`Invalid format` for both instead of a UI-stream URL: `isImageFormat`
rejects every allowed image format that does not split into exactly two
`";"`-separated tokens, contradicting the allowed-set it just
consulted (and its own comment that the alpha part is optional).  For
the two-token formats the claim's URL shape does hold, as evaluated
here on `"jpeg;png"`: `fmt` carries the first token and `alpha` the
second. -/
theorem C3_single_token_image_format_fails :
    _ALLOWED_UI_IMAGE_FMT "jpeg" = true ∧
    _ALLOWED_UI_IMAGE_FMT "png" = true ∧
    SessionGetUIURL ctxDemo "jpeg" false 0 = .error "Invalid format: jpeg" ∧
    SessionGetUIURL ctxDemo "png" false 0 = .error "Invalid format: png" ∧
    SessionGetUIURL ctxDemo "jpeg;png" false 0 =
      .ok "https://example.com/osb/session/ui?session_id=s1&fmt=jpeg&ts_discon=0&alpha=png" := by
  refine ⟨by decide, by decide, by decide, by decide, by decide⟩

/-! ### Claim C6 -/

/-- C6: decoding a polled body that is exactly `"\n\n"` (the empty
keep-alive message) performs no listener call, leaves the reset flag
untouched, and sets the next POST body to empty — for every header
parser, listener and engine state. -/
theorem C6_keepalive_empty_message (ph : ParseHeaderFn)
    (appf : Option ListenerModel) (st : EngineState) :
    controlChannelDecode ph appf st (utf8Str "\n\n") =
      .next { st with postMessage := none } [] := rfl

/-! ### Claim C8 -/

/-- Annex-B concatenation: every NAL unit preceded by the start code. -/
def annexBNALUs : List (List Nat) → List Nat
  | [] => []
  | n :: rest => startCodeBytes ++ n ++ annexBNALUs rest

/-- The appending fold of `pktToBitstream` produces the Annex-B
concatenation after its initial segment. -/
theorem foldl_append_annexB (l : List (List Nat)) (init : List Nat) :
    l.foldl (fun d nalu => d ++ startCodeBytes ++ nalu) init = init ++ annexBNALUs l := by
  induction l generalizing init with
  | nil => simp [annexBNALUs]
  | cons n rest ih =>
    rw [List.foldl_cons, ih]
    simp [annexBNALUs, List.append_assoc]

/-- C8: for an H.264 stream the delivered bitstream is Annex-B — every
NAL unit of the packet (as produced by the external `SplitNALUs`) is
preceded by the 4-byte start code, and on a key frame the output begins
with start code + SPS + start code + PPS ahead of the packet's NAL
units; for any other codec the packet data is delivered verbatim. -/
theorem C8_pktToBitstream_annexB (cd : H264CodecData)
    (splitNALUs : List Nat → List (List Nat)) (pkt : AVPacket) :
    pktToBitstream .h264 cd splitNALUs pkt =
      (if pkt.isKeyFrame then
        startCodeBytes ++ cd.sps ++ startCodeBytes ++ cd.pps
      else []) ++ annexBNALUs (splitNALUs pkt.data) ∧
    pktToBitstream .other cd splitNALUs pkt = pkt.data := by
  constructor
  · show (splitNALUs pkt.data).foldl _ _ = _
    rw [foldl_append_annexB]
    cases pkt.isKeyFrame <;> simp
  · rfl

/-! ### Claim C4 -/

/-- C4: (i) a polled body with no `"\n\n"` is fatal — the decode
terminates the channel with an error and signals the `isDone` channel;
(ii) a body with a well-formed header whose declared `payloadSize`
parses but differs from the number of bytes after the sentinel is
skipped — the next POST body is empty (and the reset flag untouched) —
and polling continues. -/
theorem C4_missing_sentinel_fatal_size_mismatch_skips
    (ph : ParseHeaderFn) (appf : Option ListenerModel) (st : EngineState)
    (body : List Nat) (k n : Nat) (req : ControlChannelRequest) :
    (findNLNL body = none →
      controlChannelDecode ph appf st body =
        .terminated "Invalid response from control channel, missing end of message newlines" true) ∧
    (findNLNL body = some k → k ≠ 0 →
      ph (body.take (k + 2)) = some req →
      goParseUint64 req.PayloadSize = some n →
      (body.drop (k + 2)).length ≠ n →
      controlChannelDecode ph appf st body =
        .next { st with postMessage := none } []) := by
  constructor
  · intro h
    simp only [controlChannelDecode, h]
  · intro hfind hk hph hsize hlen
    obtain ⟨k2, rfl⟩ : ∃ m, k = m + 1 := ⟨k - 1, by omega⟩
    have hpsne : (req.PayloadSize != "") = true := by
      simp only [bne_iff_ne, ne_eq]
      intro he
      rw [he] at hsize
      simp [goParseUint64] at hsize
    simp only [controlChannelDecode, hfind, hph, hpsne, Bool.true_or, if_true, hsize,
      if_pos hlen]

/-- C4 witness: the fatal branch on a sentinel-free body, and the skip
branch on a concrete message declaring `payloadSize` 5 while carrying
three payload bytes. -/
theorem C4_witness :
    controlChannelDecode phDemo (some listenerStub) controlChannelInitState
        (utf8Str "no sentinel here") =
      .terminated "Invalid response from control channel, missing end of message newlines" true ∧
    controlChannelDecode phDemo (some listenerStub)
        { shouldReset := false, postMessage := none } bodyMismatchDemo =
      .next { shouldReset := false, postMessage := none } [] := by
  constructor
  · exact (C4_missing_sentinel_fatal_size_mismatch_skips phDemo (some listenerStub)
      controlChannelInitState (utf8Str "no sentinel here") 0 0 reqDemo).1 (by decide)
  · exact (C4_missing_sentinel_fatal_size_mismatch_skips phDemo (some listenerStub)
      { shouldReset := false, postMessage := none } bodyMismatchDemo 53 5 reqDemo).2
      (by decide) (by decide) (by decide) (by decide) (by decide)

/-! ### Claim C2 -/

/-- C2 (amended).  Reset discipline of the engine, per iteration
(`controlChannelIter` = poll phase, which sends `&reset=1` exactly when
the flag is set and clears it, followed by the decode phase):
(a) the first poll always carries `reset=1`;
(b) after a header JSON parse failure the next poll carries `reset=1`;
(c) after an unparsable `payloadSize` the message is skipped and the
next poll does **not** carry `reset=1`;
(d) after a payload size mismatch the message is skipped and the next
poll does **not** carry `reset=1`;
(e) after a successful decode the next poll does not carry `reset=1`. -/
theorem C2_reset_discipline (ph : ParseHeaderFn) (appf : Option ListenerModel)
    (st : EngineState) (body : List Nat) (k n : Nat) (req : ControlChannelRequest) :
    ((controlChannelIter ph appf controlChannelInitState body).1 = true) ∧
    (findNLNL body = some k → k ≠ 0 → ph (body.take (k + 2)) = none →
      (controlChannelIter ph appf st body).2 =
        .next { shouldReset := true, postMessage := none } []) ∧
    (findNLNL body = some k → k ≠ 0 → ph (body.take (k + 2)) = some req →
      req.PayloadSize ≠ "" → goParseUint64 req.PayloadSize = none →
      (controlChannelIter ph appf st body).2 =
        .next { shouldReset := false, postMessage := none } []) ∧
    (findNLNL body = some k → k ≠ 0 → ph (body.take (k + 2)) = some req →
      goParseUint64 req.PayloadSize = some n →
      (body.drop (k + 2)).length ≠ n →
      (controlChannelIter ph appf st body).2 =
        .next { shouldReset := false, postMessage := none } []) ∧
    (findNLNL body = some k → k ≠ 0 → ph (body.take (k + 2)) = some req →
      goParseUint64 req.PayloadSize = some n →
      (body.drop (k + 2)).length = n →
      ∃ st2 calls, (controlChannelIter ph appf st body).2 = .next st2 calls ∧
        st2.shouldReset = false) := by
  refine ⟨rfl, ?_, ?_, ?_, ?_⟩
  · intro hfind hk hph
    obtain ⟨k2, rfl⟩ : ∃ m, k = m + 1 := ⟨k - 1, by omega⟩
    simp only [controlChannelIter, controlChannelPoll, controlChannelDecode, hfind, hph]
  · intro hfind hk hph hne hsize
    obtain ⟨k2, rfl⟩ : ∃ m, k = m + 1 := ⟨k - 1, by omega⟩
    have hcond : (req.PayloadSize != "") = true := by
      simpa only [bne_iff_ne, ne_eq] using hne
    simp only [controlChannelIter, controlChannelPoll, controlChannelDecode, hfind, hph,
      hcond, Bool.true_or, if_true, hsize]
  · intro hfind hk hph hsize hlen
    obtain ⟨k2, rfl⟩ : ∃ m, k = m + 1 := ⟨k - 1, by omega⟩
    have hcond : (req.PayloadSize != "") = true := by
      simp only [bne_iff_ne, ne_eq]
      intro he
      rw [he] at hsize
      simp [goParseUint64] at hsize
    simp only [controlChannelIter, controlChannelPoll, controlChannelDecode, hfind, hph,
      hcond, Bool.true_or, if_true, hsize, if_pos hlen]
  · intro hfind hk hph hsize hlen
    obtain ⟨k2, rfl⟩ : ∃ m, k = m + 1 := ⟨k - 1, by omega⟩
    rcases hproc : processRPCRequest req (body.drop (k2 + 1 + 2)) appf with ⟨resp, err, calls⟩
    by_cases hcond : ((req.PayloadSize != "") || ((body.drop (k2 + 1 + 2)).length != 0)) = true
    · refine ⟨{ shouldReset := false, postMessage := if err = none then resp else none },
        calls, ?_, rfl⟩
      simp only [controlChannelIter, controlChannelPoll, controlChannelDecode, hfind, hph,
        hcond, if_true, hsize, if_neg (by omega : ¬(body.drop (k2 + 1 + 2)).length ≠ n), hproc]
    · refine ⟨{ shouldReset := false, postMessage := if err = none then resp else none },
        calls, ?_, rfl⟩
      simp only [Bool.not_eq_true] at hcond
      simp only [controlChannelIter, controlChannelPoll, controlChannelDecode, hfind, hph,
        hcond, Bool.false_eq_true, if_false, hproc]

/-- C2 counterexample to the claim as stated: a payload size mismatch
is a per-message protocol error, yet the engine state after decoding it
has the reset flag clear, so the next poll does **not** carry
`reset=1`.  (The body declares `payloadSize` 5 and carries 3 bytes, as
certified by the last two conjuncts.) -/
theorem C2_counterexample :
    controlChannelIter phDemo (some listenerStub)
        { shouldReset := false, postMessage := none } bodyMismatchDemo =
      (false, .next { shouldReset := false, postMessage := none } []) ∧
    goParseUint64 reqDemo.PayloadSize = some 5 ∧
    (bodyMismatchDemo.drop 55).length = 3 := by
  refine ⟨by decide, by decide, by decide⟩

/-- C2 witness: each branch of the amended reset discipline at concrete
inputs — the first poll, a header parse failure (parser rejecting the
body), the unparsable-`payloadSize` case, the size-mismatch case and a
successful decode. -/
theorem C2_witness :
    (controlChannelIter phDemo (some listenerStub) controlChannelInitState
        bodyMismatchDemo).1 = true ∧
    (controlChannelIter (fun _ => none) (some listenerStub)
        { shouldReset := false, postMessage := none } headerDemoBytes).2 =
      .next { shouldReset := true, postMessage := none } [] ∧
    (controlChannelIter (fun _ => some { Service := "play", PayloadSize := "x" })
        (some listenerStub) { shouldReset := false, postMessage := none }
        headerDemoBytes).2 =
      .next { shouldReset := false, postMessage := none } [] ∧
    (controlChannelIter phDemo (some listenerStub)
        { shouldReset := false, postMessage := none } bodyMismatchDemo).2 =
      .next { shouldReset := false, postMessage := none } [] ∧
    (∃ st2 calls,
      (controlChannelIter phDemo (some listenerStub)
          { shouldReset := false, postMessage := none }
          (headerDemoBytes ++ [1, 2, 3, 4, 5])).2 = .next st2 calls ∧
        st2.shouldReset = false) := by
  refine ⟨?_, ?_, ?_, ?_, ?_⟩
  · exact (C2_reset_discipline phDemo (some listenerStub) controlChannelInitState
      bodyMismatchDemo 53 5 reqDemo).1
  · exact (C2_reset_discipline (fun _ => none) (some listenerStub)
      { shouldReset := false, postMessage := none } headerDemoBytes 53 5 reqDemo).2.1
      (by decide) (by decide) (by decide)
  · exact (C2_reset_discipline (fun _ => some { Service := "play", PayloadSize := "x" })
      (some listenerStub) { shouldReset := false, postMessage := none }
      headerDemoBytes 53 5 { Service := "play", PayloadSize := "x" }).2.2.1
      (by decide) (by decide) (by decide) (by decide) (by decide)
  · exact (C2_reset_discipline phDemo (some listenerStub)
      { shouldReset := false, postMessage := none } bodyMismatchDemo 53 5 reqDemo).2.2.2.1
      (by decide) (by decide) (by decide) (by decide) (by decide)
  · exact (C2_reset_discipline phDemo (some listenerStub)
      { shouldReset := false, postMessage := none } (headerDemoBytes ++ [1, 2, 3, 4, 5])
      53 5 reqDemo).2.2.2.2
      (by decide) (by decide) (by decide) (by decide) (by decide)

/-! ### Claim C5 -/

/-- C5: for every request of a float-argument service (`seek`,
`setRate`, `setVolume`) whose numeric string field is rejected by
`strconv.ParseFloat`, the dispatcher makes no listener call and returns
— with a nil error, so the engine keeps polling — the serialized
response built from the request's `requestId` and the error
`"Failed to parse float: "` followed by the offending value (which
`marshalRPCResponse` renders with `result="ERROR"` and the text as
`message`). -/
theorem C5_float_parse_error_response (req : ControlChannelRequest)
    (payload : List Nat) (appf : Option ListenerModel) :
    (req.Service = "seek" → goParseFloatOk req.Time = false →
      processRPCRequest req payload appf =
        (some (marshalRPCResponse [("requestId", .str req.RequestId)] none
          (some ("Failed to parse float: " ++ req.Time))), none, [])) ∧
    (req.Service = "setRate" → goParseFloatOk req.Rate = false →
      processRPCRequest req payload appf =
        (some (marshalRPCResponse [("requestId", .str req.RequestId)] none
          (some ("Failed to parse float: " ++ req.Rate))), none, [])) ∧
    (req.Service = "setVolume" → goParseFloatOk req.Volume = false →
      processRPCRequest req payload appf =
        (some (marshalRPCResponse [("requestId", .str req.RequestId)] none
          (some ("Failed to parse float: " ++ req.Volume))), none, [])) := by
  refine ⟨?_, ?_, ?_⟩ <;> intro hs hf <;>
    simp only [processRPCRequest, hs, hf, rpcFinish, Bool.false_eq_true, if_false,
      reduceCtorEq, reduceIte] <;> rfl

/-- The request of spec scenario 3: `seek` with the unparsable time
literal `"NaNx"`. -/
def reqSeekNaN : ControlChannelRequest :=
  { RequestId := "r2", InstanceId := "i1", Service := "seek", Time := "NaNx" }

/-- C5 witness: on the `seek`/`"NaNx"` request the dispatcher returns
exactly the scenario-3 response header bytes, a nil error and an empty
call trace. -/
theorem C5_witness :
    processRPCRequest reqSeekNaN [] (some listenerStub) =
      (some (utf8Str
        "\x7b\"message\":\"Failed to parse float: NaNx\",\"requestId\":\"r2\",\"result\":\"ERROR\"\x7d"),
       none, []) := by
  have h := (C5_float_parse_error_response reqSeekNaN [] (some listenerStub)).1
    rfl (by decide)
  rw [h]
  decide

/-! ### Claim C7 -/

/-- Whether an `Except` result is a success. -/
def exceptIsOk {ε α : Type} : Except ε α → Bool
  | .ok _ => true
  | .error _ => false

/-- C7: for any session context and any stream format on which
`SessionGetUIURL` succeeds, `SessionUIStreamStart` fails with exactly
`"UI is already streaming"` (starting nothing) whenever
`isUIStreaming` is `true`, and `SessionUIStreamStop` fails with exactly
`"UI is not streaming"` (signalling nothing) whenever `isUIStreaming`
is `false`. -/
theorem C7_exclusive_ui_streaming (ctx : SessionContext) (fm : String)
    (tsDiscon : Bool) (bitrate : Int)
    (hok : exceptIsOk (SessionGetUIURL ctx fm tsDiscon bitrate) = true) :
    (ctx.isUIStreaming = true →
      SessionUIStreamStart ctx fm tsDiscon bitrate = .error "UI is already streaming") ∧
    (ctx.isUIStreaming = false →
      SessionUIStreamStop ctx = .error "UI is not streaming") := by
  constructor
  · intro hs
    rcases hurl : SessionGetUIURL ctx fm tsDiscon bitrate with e | uri
    · rw [hurl] at hok
      simp [exceptIsOk] at hok
    · simp only [SessionUIStreamStart, hurl, hs, if_true]
  · intro hs
    simp only [SessionUIStreamStop, hs, Bool.false_eq_true, not_false_eq_true, if_true]

/-- C7 witness: with the valid video format `mp2t;h264`, starting on a
streaming context fails with `UI is already streaming`, and stopping a
non-streaming context fails with `UI is not streaming`. -/
theorem C7_witness :
    SessionUIStreamStart ctxDemoStreaming "mp2t;h264" false 0 =
      .error "UI is already streaming" ∧
    SessionUIStreamStop ctxDemo = .error "UI is not streaming" :=
  ⟨(C7_exclusive_ui_streaming ctxDemoStreaming "mp2t;h264" false 0 (by decide)).1 rfl,
   (C7_exclusive_ui_streaming ctxDemo "mp2t;h264" false 0 (by decide)).2 rfl⟩

/-! ### Claim C9 -/

/-- Whether `pat` occurs as a contiguous segment of `s`. -/
def occursIn (pat : List Char) : List Char → Bool
  | [] => startsWithList pat []
  | c :: rest => startsWithList pat (c :: rest) || occursIn pat rest

/-- Substring test on strings. -/
def strContains (s pat : String) : Bool := occursIn pat.data s.data

/-! #### A toolbox for computing `strings.Replace` on templates

The URL builders substitute `${...}` tokens sequentially; the values
substituted for earlier tokens must be scanned over by the later
replacements.  The lemmas below let each `strReplaceAll` application be
evaluated segment by segment: a segment is skipped when the pattern can
match at none of its positions (`patClean`, decidable for concrete
segments, and derivable from a head-character bound for the abstract
ones), the pattern itself is consumed when it heads the remainder, and
a pattern-free tail passes through unchanged. -/

/-- No position of `mid` can start a pattern match, regardless of what
follows `mid`: where the pattern fits inside `mid` it mismatches, and
closer to the end the first characters already differ. -/
def patClean (pat mid : List Char) : Bool :=
  (List.range mid.length).all (fun n =>
    if n + pat.length ≤ mid.length then !startsWithList pat (mid.drop n)
    else (mid.drop n).headD ' ' != pat.headD ' ')

/-- Every character of the string differs from `h0`. -/
def noChar (h0 : Char) (s : String) : Bool :=
  s.data.all (fun c => c != h0)

theorem startsWithList_cons_ne (p c : Char) (ps cs : List Char) (h : p ≠ c) :
    startsWithList (p :: ps) (c :: cs) = false := by
  simp [startsWithList, h]

theorem startsWithList_self_append (pat rest : List Char) :
    startsWithList pat (pat ++ rest) = true := by
  induction pat with
  | nil => rfl
  | cons p ps ih => simp [startsWithList, ih]

theorem startsWithList_append_of_le (pat a b : List Char)
    (h : pat.length ≤ a.length) :
    startsWithList pat (a ++ b) = startsWithList pat a := by
  induction pat generalizing a with
  | nil => cases a <;> rfl
  | cons p ps ih =>
    cases a with
    | nil => simp at h
    | cons x xs =>
      simp only [List.cons_append, startsWithList]
      congr 1
      exact ih xs (by simpa using h)

theorem patClean_tail (pat : List Char) (m : Char) (mid : List Char)
    (h : patClean pat (m :: mid) = true) : patClean pat mid = true := by
  simp only [patClean, List.all_eq_true, List.mem_range] at h ⊢
  intro n hn
  have h2 := h (n + 1) (by simp only [List.length_cons]; omega)
  rw [List.drop_succ_cons] at h2
  rcases le_or_lt (n + pat.length) mid.length with hle | hlt
  · rw [if_pos hle]
    rw [if_pos (by simp only [List.length_cons]; omega)] at h2
    exact h2
  · rw [if_neg (by omega)]
    rw [if_neg (by simp only [List.length_cons]; omega)] at h2
    exact h2

theorem patClean_head_no_match (pat : List Char) (m : Char) (mid rest : List Char)
    (hpat : pat ≠ []) (h : patClean pat (m :: mid) = true) :
    startsWithList pat (m :: (mid ++ rest)) = false := by
  rcases pat with _ | ⟨p, ps⟩
  · exact absurd rfl hpat
  simp only [patClean, List.all_eq_true, List.mem_range] at h
  have h0 := h 0 (by simp)
  simp only [List.drop_zero, Nat.zero_add] at h0
  rcases le_or_lt (p :: ps).length (m :: mid).length with hle | hlt
  · rw [if_pos hle] at h0
    have : startsWithList (p :: ps) (m :: mid) = false := by
      simpa using h0
    calc startsWithList (p :: ps) (m :: (mid ++ rest))
        = startsWithList (p :: ps) ((m :: mid) ++ rest) := by rw [List.cons_append]
      _ = startsWithList (p :: ps) (m :: mid) := startsWithList_append_of_le _ _ _ hle
      _ = false := this
  · rw [if_neg (by omega)] at h0
    have hne : m ≠ p := by simpa [bne_iff_ne] using h0
    exact startsWithList_cons_ne p m ps (mid ++ rest) (fun he => hne he.symm)

theorem patClean_of_head_ne (pat mid : List Char) (hpat : pat ≠ [])
    (h : ∀ c ∈ mid, c ≠ pat.headD ' ') : patClean pat mid = true := by
  rcases pat with _ | ⟨p, ps⟩
  · exact absurd rfl hpat
  simp only [List.headD_cons] at h
  simp only [patClean, List.all_eq_true, List.mem_range]
  intro n hn
  have hne : mid.drop n ≠ [] := by
    intro he
    have := congrArg List.length he
    simp only [List.length_drop, List.length_nil] at this
    omega
  rcases he : mid.drop n with _ | ⟨c, cs⟩
  · exact absurd he hne
  have hc : c ∈ mid := by
    have : c ∈ mid.drop n := by rw [he]; exact List.mem_cons_self c cs
    exact List.drop_subset n mid this
  rcases le_or_lt (n + (p :: ps).length) mid.length with hle | hlt
  · rw [if_pos hle]
    have : startsWithList (p :: ps) (c :: cs) = false :=
      startsWithList_cons_ne p c ps cs (fun hpc => (h c hc) (hpc ▸ rfl))
    simp [this]
  · rw [if_neg (by omega)]
    simpa [bne_iff_ne, List.headD_cons] using fun hcp => (h c hc) hcp

theorem replaceGo_nil (pat v : List Char) (fuel : Nat) :
    replaceGo pat v fuel [] = [] := by
  cases fuel <;> rfl

theorem replaceGo_fuel_ge (pat v : List Char) :
    ∀ (f1 : Nat) (s : List Char) (f2 : Nat), s.length ≤ f1 → s.length ≤ f2 →
      replaceGo pat v f1 s = replaceGo pat v f2 s := by
  intro f1
  induction f1 with
  | zero =>
    intro s f2 h1 _
    have : s = [] := List.length_eq_zero.mp (by omega)
    subst this
    simp [replaceGo_nil]
  | succ f ih =>
    intro s f2 h1 h2
    rcases s with _ | ⟨c, cs⟩
    · simp [replaceGo_nil]
    obtain ⟨g, rfl⟩ : ∃ g, f2 = g + 1 := ⟨f2 - 1, by simp at h2; omega⟩
    show replaceGo pat v (f + 1) (c :: cs) = replaceGo pat v (g + 1) (c :: cs)
    simp only [replaceGo]
    by_cases hm : startsWithList pat (c :: cs) = true
    · rw [if_pos hm, if_pos hm]
      congr 1
      apply ih
      · simp only [List.length_drop]
        simp only [List.length_cons] at h1
        omega
      · simp only [List.length_drop]
        simp only [List.length_cons] at h2
        omega
    · rw [if_neg hm, if_neg hm]
      congr 1
      apply ih
      · simp only [List.length_cons] at h1; omega
      · simp only [List.length_cons] at h2; omega

theorem replaceGo_no_occ (pat v : List Char) :
    ∀ (s : List Char) (fuel : Nat), occursIn pat s = false →
      replaceGo pat v fuel s = s := by
  intro s
  induction s with
  | nil => intro fuel _; exact replaceGo_nil pat v fuel
  | cons c cs ih =>
    intro fuel h
    simp only [occursIn, Bool.or_eq_false_iff] at h
    rcases fuel with _ | f
    · rfl
    show replaceGo pat v (f + 1) (c :: cs) = c :: cs
    simp only [replaceGo]
    rw [if_neg (by simp [h.1]), ih f h.2]

theorem replaceGo_skip (pat v : List Char) (hpat : pat ≠ []) :
    ∀ (mid rest : List Char) (fuel : Nat), patClean pat mid = true →
      (mid ++ rest).length ≤ fuel →
      replaceGo pat v fuel (mid ++ rest) =
        mid ++ replaceGo pat v (fuel - mid.length) rest := by
  intro mid
  induction mid with
  | nil => intro rest fuel _ _; simp
  | cons m mid2 ih =>
    intro rest fuel hclean hfuel
    have h1 : 1 ≤ fuel := le_trans (by simp) hfuel
    obtain ⟨f, rfl⟩ : ∃ f, fuel = f + 1 := ⟨fuel - 1, by omega⟩
    have hno := patClean_head_no_match pat m mid2 rest hpat hclean
    show replaceGo pat v (f + 1) (m :: (mid2 ++ rest)) = _
    simp only [replaceGo]
    rw [if_neg (by simp [hno])]
    rw [ih rest f (patClean_tail pat m mid2 hclean)
      (by simp only [List.length_append, List.length_cons] at hfuel ⊢; omega)]
    rw [show f + 1 - (m :: mid2).length = f - mid2.length from by
      simp only [List.length_cons]; omega]
    simp [List.cons_append]

theorem replaceGo_front (pat v rest : List Char) (hpat : pat ≠ []) (fuel : Nat)
    (hfuel : (pat ++ rest).length ≤ fuel) :
    replaceGo pat v fuel (pat ++ rest) = v ++ replaceGo pat v rest.length rest := by
  rcases pat with _ | ⟨p, ps⟩
  · exact absurd rfl hpat
  obtain ⟨f, rfl⟩ : ∃ f, fuel = f + 1 :=
    ⟨fuel - 1, by simp only [List.length_append, List.length_cons] at hfuel; omega⟩
  show replaceGo (p :: ps) v (f + 1) (p :: (ps ++ rest)) = _
  simp only [replaceGo]
  rw [if_pos (by
    have := startsWithList_self_append (p :: ps) rest
    simpa using this)]
  congr 1
  rw [show (p :: ps).length - 1 = ps.length by simp]
  rw [List.drop_left]
  apply replaceGo_fuel_ge
  · simp only [List.length_append, List.length_cons] at hfuel
    omega
  · omega

/-- `String` equality via character data. -/
theorem strExt (a b : String) (h : a.data = b.data) : a = b := by
  cases a
  cases b
  exact congrArg String.mk h

theorem strData_append (a b : String) : (a ++ b).data = a.data ++ b.data := rfl

/-- Skip a pattern-free leading segment of the scanned string. -/
theorem strReplaceAll_skip (mid rest pat v : String) (hpat : pat.data ≠ [])
    (hclean : patClean pat.data mid.data = true) :
    strReplaceAll (mid ++ rest) pat v = mid ++ strReplaceAll rest pat v := by
  apply strExt
  show replaceGo pat.data v.data (mid ++ rest).data.length (mid ++ rest).data =
    (mid ++ strReplaceAll rest pat v).data
  rw [strData_append, strData_append]
  rw [replaceGo_skip pat.data v.data hpat mid.data rest.data _ hclean (le_of_eq rfl)]
  congr 1
  simp only [List.length_append, Nat.add_sub_cancel_left]
  rfl

/-- Consume the pattern at the head of the scanned string. -/
theorem strReplaceAll_front (pat rest v : String) (hpat : pat.data ≠ []) :
    strReplaceAll (pat ++ rest) pat v = v ++ strReplaceAll rest pat v := by
  apply strExt
  show replaceGo pat.data v.data (pat ++ rest).data.length (pat ++ rest).data =
    (v ++ strReplaceAll rest pat v).data
  rw [strData_append, strData_append]
  rw [replaceGo_front pat.data v.data rest.data hpat _ (le_of_eq rfl)]
  rfl

/-- A string without any occurrence of the pattern is left unchanged. -/
theorem strReplaceAll_no_occ (s pat v : String)
    (h : occursIn pat.data s.data = false) : strReplaceAll s pat v = s := by
  apply strExt
  show replaceGo pat.data v.data s.data.length s.data = s.data
  exact replaceGo_no_occ pat.data v.data s.data _ h

/-- A segment whose characters all differ from the pattern's first
character is skipped unchanged (usable with an abstract segment). -/
theorem strReplaceAll_skip_noChar (h0 : Char) (mid rest pat v : String)
    (hpat : pat.data ≠ []) (hhead : pat.data.headD ' ' = h0)
    (hmid : noChar h0 mid = true) :
    strReplaceAll (mid ++ rest) pat v = mid ++ strReplaceAll rest pat v := by
  apply strReplaceAll_skip mid rest pat v hpat
  apply patClean_of_head_ne pat.data mid.data hpat
  intro c hc
  have := List.all_eq_true.mp hmid c hc
  rw [hhead]
  simpa [bne_iff_ne] using this

theorem strReplaceAll_empty (pat v : String) : strReplaceAll "" pat v = "" := rfl

theorem strAppend_empty (s : String) : s ++ "" = s :=
  strExt _ _ (by rw [strData_append]; simp [show ("" : String).data = [] from rfl])

theorem strAppend_assoc (a b c : String) : a ++ b ++ c = a ++ (b ++ c) :=
  strExt _ _ (by simp only [strData_append, List.append_assoc])

/-- Replacing a pattern standing alone yields the value. -/
theorem strReplaceAll_self (pat v : String) (hpat : pat.data ≠ []) :
    strReplaceAll pat pat v = v := by
  have h := strReplaceAll_front pat "" v hpat
  rw [strAppend_empty] at h
  rw [h, strReplaceAll_empty, strAppend_empty]

/-- A whole string free of the pattern's first character is unchanged. -/
theorem strReplaceAll_noChar_self (h0 : Char) (s pat v : String)
    (hpat : pat.data ≠ []) (hhead : pat.data.headD ' ' = h0)
    (hs : noChar h0 s = true) :
    strReplaceAll s pat v = s := by
  have h := strReplaceAll_skip_noChar h0 s "" pat v hpat hhead hs
  rw [strAppend_empty] at h
  rw [h, strReplaceAll_empty, strAppend_empty]

/-- Digits are not `'$'`. -/
theorem digitChar10_ne_dollar (k : Nat) : digitChar10 k ≠ '$' := by
  unfold digitChar10
  split_ifs <;> decide

theorem natDigsAux_ne_dollar :
    ∀ (fuel n : Nat) (acc : List Char), (∀ c ∈ acc, c ≠ '$') →
      ∀ c ∈ natDigsAux fuel n acc, c ≠ '$' := by
  intro fuel
  induction fuel with
  | zero => intro n acc hacc c hc; exact hacc c hc
  | succ f ih =>
    intro n acc hacc c hc
    simp only [natDigsAux] at hc
    by_cases hn : n < 10
    · rw [if_pos hn] at hc
      rcases List.mem_cons.mp hc with h | h
      · rw [h]; exact digitChar10_ne_dollar n
      · exact hacc c h
    · rw [if_neg hn] at hc
      refine ih (n / 10) _ ?_ c hc
      intro d hd
      rcases List.mem_cons.mp hd with h | h
      · rw [h]; exact digitChar10_ne_dollar (n % 10)
      · exact hacc d h

/-- The decimal rendering of an integer contains no `'$'`. -/
theorem itoa_noChar_dollar (i : Int) : noChar '$' (itoa i) = true := by
  simp only [noChar, List.all_eq_true]
  intro c hc
  simp only [bne_iff_ne, ne_eq]
  revert hc
  unfold itoa itoaNat
  by_cases hi : i < 0
  · rw [if_pos hi]
    intro hc
    rcases List.mem_cons.mp (by simpa [strData_append] using hc) with h | h
    · rw [h]; decide
    · exact natDigsAux_ne_dollar _ _ [] (by simp) c h
  · rw [if_neg hi]
    intro hc
    exact natDigsAux_ne_dollar _ _ [] (by simp) c (by simpa using hc)

/-- Evaluation of the `replaceVars` call of `SessionSendEvent` for a
key-type event with `char > 0`: both `${KEYCODE}` and `${CHAR}` receive
the same `cs` (the rendering of `code`); `${X}`/`${Y}` do not occur. -/
theorem replaceVarsEventKeyChar (host escSid typeStr cs vx vy : String)
    (hP : noChar '$' host = true) (hS : noChar '$' escSid = true)
    (hT : noChar '$' typeStr = true) (hCS : noChar '$' cs = true) :
    replaceVars (_SESSION_EVENT_URL ++ "&code=${KEYCODE}" ++ "&char=${CHAR}")
      ["${PROTHOST}", "${SID}", "${TYPE}", "${KEYCODE}", "${CHAR}", "${X}", "${Y}"]
      [host, escSid, typeStr, cs, cs, vx, vy] =
    host ++ ("/osb/session/event?session_id=" ++ (escSid ++ ("&type=" ++ (typeStr ++
      ("&code=" ++ (cs ++ ("&char=" ++ cs))))))) := by
  simp only [replaceVars]
  rw [show _SESSION_EVENT_URL ++ "&code=${KEYCODE}" ++ "&char=${CHAR}" =
    "${PROTHOST}" ++ "/osb/session/event?session_id=${SID}&type=${TYPE}&code=${KEYCODE}&char=${CHAR}"
    from by decide]
  rw [strReplaceAll_front _ _ _ (by decide)]
  rw [strReplaceAll_no_occ
    "/osb/session/event?session_id=${SID}&type=${TYPE}&code=${KEYCODE}&char=${CHAR}"
    "${PROTHOST}" host (by decide)]
  rw [strReplaceAll_skip_noChar '$' host _ "${SID}" escSid (by decide) (by decide) hP]
  rw [show ("/osb/session/event?session_id=${SID}&type=${TYPE}&code=${KEYCODE}&char=${CHAR}" : String) =
    "/osb/session/event?session_id=" ++ ("${SID}" ++ "&type=${TYPE}&code=${KEYCODE}&char=${CHAR}")
    from by decide]
  rw [strReplaceAll_skip "/osb/session/event?session_id=" _ "${SID}" escSid (by decide) (by decide)]
  rw [strReplaceAll_front _ _ _ (by decide)]
  rw [strReplaceAll_no_occ "&type=${TYPE}&code=${KEYCODE}&char=${CHAR}" "${SID}" escSid (by decide)]
  rw [strReplaceAll_skip_noChar '$' host _ "${TYPE}" typeStr (by decide) (by decide) hP]
  rw [strReplaceAll_skip "/osb/session/event?session_id=" _ "${TYPE}" typeStr (by decide) (by decide)]
  rw [strReplaceAll_skip_noChar '$' escSid _ "${TYPE}" typeStr (by decide) (by decide) hS]
  rw [show ("&type=${TYPE}&code=${KEYCODE}&char=${CHAR}" : String) =
    "&type=" ++ ("${TYPE}" ++ "&code=${KEYCODE}&char=${CHAR}") from by decide]
  rw [strReplaceAll_skip "&type=" _ "${TYPE}" typeStr (by decide) (by decide)]
  rw [strReplaceAll_front _ _ _ (by decide)]
  rw [strReplaceAll_no_occ "&code=${KEYCODE}&char=${CHAR}" "${TYPE}" typeStr (by decide)]
  rw [strReplaceAll_skip_noChar '$' host _ "${KEYCODE}" cs (by decide) (by decide) hP]
  rw [strReplaceAll_skip "/osb/session/event?session_id=" _ "${KEYCODE}" cs (by decide) (by decide)]
  rw [strReplaceAll_skip_noChar '$' escSid _ "${KEYCODE}" cs (by decide) (by decide) hS]
  rw [strReplaceAll_skip "&type=" _ "${KEYCODE}" cs (by decide) (by decide)]
  rw [strReplaceAll_skip_noChar '$' typeStr _ "${KEYCODE}" cs (by decide) (by decide) hT]
  rw [show ("&code=${KEYCODE}&char=${CHAR}" : String) =
    "&code=" ++ ("${KEYCODE}" ++ "&char=${CHAR}") from by decide]
  rw [strReplaceAll_skip "&code=" _ "${KEYCODE}" cs (by decide) (by decide)]
  rw [strReplaceAll_front _ _ _ (by decide)]
  rw [strReplaceAll_no_occ "&char=${CHAR}" "${KEYCODE}" cs (by decide)]
  rw [strReplaceAll_skip_noChar '$' host _ "${CHAR}" cs (by decide) (by decide) hP]
  rw [strReplaceAll_skip "/osb/session/event?session_id=" _ "${CHAR}" cs (by decide) (by decide)]
  rw [strReplaceAll_skip_noChar '$' escSid _ "${CHAR}" cs (by decide) (by decide) hS]
  rw [strReplaceAll_skip "&type=" _ "${CHAR}" cs (by decide) (by decide)]
  rw [strReplaceAll_skip_noChar '$' typeStr _ "${CHAR}" cs (by decide) (by decide) hT]
  rw [strReplaceAll_skip "&code=" _ "${CHAR}" cs (by decide) (by decide)]
  rw [strReplaceAll_skip_noChar '$' cs _ "${CHAR}" cs (by decide) (by decide) hCS]
  rw [show ("&char=${CHAR}" : String) = "&char=" ++ "${CHAR}" from by decide]
  rw [strReplaceAll_skip "&char=" _ "${CHAR}" cs (by decide) (by decide)]
  rw [strReplaceAll_self "${CHAR}" cs (by decide)]
  rw [strReplaceAll_skip_noChar '$' host _ "${X}" vx (by decide) (by decide) hP]
  rw [strReplaceAll_skip "/osb/session/event?session_id=" _ "${X}" vx (by decide) (by decide)]
  rw [strReplaceAll_skip_noChar '$' escSid _ "${X}" vx (by decide) (by decide) hS]
  rw [strReplaceAll_skip "&type=" _ "${X}" vx (by decide) (by decide)]
  rw [strReplaceAll_skip_noChar '$' typeStr _ "${X}" vx (by decide) (by decide) hT]
  rw [strReplaceAll_skip "&code=" _ "${X}" vx (by decide) (by decide)]
  rw [strReplaceAll_skip_noChar '$' cs _ "${X}" vx (by decide) (by decide) hCS]
  rw [strReplaceAll_skip "&char=" _ "${X}" vx (by decide) (by decide)]
  rw [strReplaceAll_noChar_self '$' cs "${X}" vx (by decide) (by decide) hCS]
  rw [strReplaceAll_skip_noChar '$' host _ "${Y}" vy (by decide) (by decide) hP]
  rw [strReplaceAll_skip "/osb/session/event?session_id=" _ "${Y}" vy (by decide) (by decide)]
  rw [strReplaceAll_skip_noChar '$' escSid _ "${Y}" vy (by decide) (by decide) hS]
  rw [strReplaceAll_skip "&type=" _ "${Y}" vy (by decide) (by decide)]
  rw [strReplaceAll_skip_noChar '$' typeStr _ "${Y}" vy (by decide) (by decide) hT]
  rw [strReplaceAll_skip "&code=" _ "${Y}" vy (by decide) (by decide)]
  rw [strReplaceAll_skip_noChar '$' cs _ "${Y}" vy (by decide) (by decide) hCS]
  rw [strReplaceAll_skip "&char=" _ "${Y}" vy (by decide) (by decide)]
  rw [strReplaceAll_noChar_self '$' cs "${Y}" vy (by decide) (by decide) hCS]

/-- As `replaceVarsEventKeyChar`, for `char ≤ 0` (no `&char` clause). -/
theorem replaceVarsEventKeyNoChar (host escSid typeStr cs vx vy : String)
    (hP : noChar '$' host = true) (hS : noChar '$' escSid = true)
    (hT : noChar '$' typeStr = true) (hCS : noChar '$' cs = true) :
    replaceVars (_SESSION_EVENT_URL ++ "&code=${KEYCODE}")
      ["${PROTHOST}", "${SID}", "${TYPE}", "${KEYCODE}", "${CHAR}", "${X}", "${Y}"]
      [host, escSid, typeStr, cs, cs, vx, vy] =
    host ++ ("/osb/session/event?session_id=" ++ (escSid ++ ("&type=" ++ (typeStr ++
      ("&code=" ++ cs))))) := by
  simp only [replaceVars]
  rw [show _SESSION_EVENT_URL ++ "&code=${KEYCODE}" =
    "${PROTHOST}" ++ "/osb/session/event?session_id=${SID}&type=${TYPE}&code=${KEYCODE}"
    from by decide]
  rw [strReplaceAll_front _ _ _ (by decide)]
  rw [strReplaceAll_no_occ
    "/osb/session/event?session_id=${SID}&type=${TYPE}&code=${KEYCODE}"
    "${PROTHOST}" host (by decide)]
  rw [strReplaceAll_skip_noChar '$' host _ "${SID}" escSid (by decide) (by decide) hP]
  rw [show ("/osb/session/event?session_id=${SID}&type=${TYPE}&code=${KEYCODE}" : String) =
    "/osb/session/event?session_id=" ++ ("${SID}" ++ "&type=${TYPE}&code=${KEYCODE}")
    from by decide]
  rw [strReplaceAll_skip "/osb/session/event?session_id=" _ "${SID}" escSid (by decide) (by decide)]
  rw [strReplaceAll_front _ _ _ (by decide)]
  rw [strReplaceAll_no_occ "&type=${TYPE}&code=${KEYCODE}" "${SID}" escSid (by decide)]
  rw [strReplaceAll_skip_noChar '$' host _ "${TYPE}" typeStr (by decide) (by decide) hP]
  rw [strReplaceAll_skip "/osb/session/event?session_id=" _ "${TYPE}" typeStr (by decide) (by decide)]
  rw [strReplaceAll_skip_noChar '$' escSid _ "${TYPE}" typeStr (by decide) (by decide) hS]
  rw [show ("&type=${TYPE}&code=${KEYCODE}" : String) =
    "&type=" ++ ("${TYPE}" ++ "&code=${KEYCODE}") from by decide]
  rw [strReplaceAll_skip "&type=" _ "${TYPE}" typeStr (by decide) (by decide)]
  rw [strReplaceAll_front _ _ _ (by decide)]
  rw [strReplaceAll_no_occ "&code=${KEYCODE}" "${TYPE}" typeStr (by decide)]
  rw [strReplaceAll_skip_noChar '$' host _ "${KEYCODE}" cs (by decide) (by decide) hP]
  rw [strReplaceAll_skip "/osb/session/event?session_id=" _ "${KEYCODE}" cs (by decide) (by decide)]
  rw [strReplaceAll_skip_noChar '$' escSid _ "${KEYCODE}" cs (by decide) (by decide) hS]
  rw [strReplaceAll_skip "&type=" _ "${KEYCODE}" cs (by decide) (by decide)]
  rw [strReplaceAll_skip_noChar '$' typeStr _ "${KEYCODE}" cs (by decide) (by decide) hT]
  rw [show ("&code=${KEYCODE}" : String) = "&code=" ++ "${KEYCODE}" from by decide]
  rw [strReplaceAll_skip "&code=" _ "${KEYCODE}" cs (by decide) (by decide)]
  rw [strReplaceAll_self "${KEYCODE}" cs (by decide)]
  rw [strReplaceAll_skip_noChar '$' host _ "${CHAR}" cs (by decide) (by decide) hP]
  rw [strReplaceAll_skip "/osb/session/event?session_id=" _ "${CHAR}" cs (by decide) (by decide)]
  rw [strReplaceAll_skip_noChar '$' escSid _ "${CHAR}" cs (by decide) (by decide) hS]
  rw [strReplaceAll_skip "&type=" _ "${CHAR}" cs (by decide) (by decide)]
  rw [strReplaceAll_skip_noChar '$' typeStr _ "${CHAR}" cs (by decide) (by decide) hT]
  rw [strReplaceAll_skip "&code=" _ "${CHAR}" cs (by decide) (by decide)]
  rw [strReplaceAll_noChar_self '$' cs "${CHAR}" cs (by decide) (by decide) hCS]
  rw [strReplaceAll_skip_noChar '$' host _ "${X}" vx (by decide) (by decide) hP]
  rw [strReplaceAll_skip "/osb/session/event?session_id=" _ "${X}" vx (by decide) (by decide)]
  rw [strReplaceAll_skip_noChar '$' escSid _ "${X}" vx (by decide) (by decide) hS]
  rw [strReplaceAll_skip "&type=" _ "${X}" vx (by decide) (by decide)]
  rw [strReplaceAll_skip_noChar '$' typeStr _ "${X}" vx (by decide) (by decide) hT]
  rw [strReplaceAll_skip "&code=" _ "${X}" vx (by decide) (by decide)]
  rw [strReplaceAll_noChar_self '$' cs "${X}" vx (by decide) (by decide) hCS]
  rw [strReplaceAll_skip_noChar '$' host _ "${Y}" vy (by decide) (by decide) hP]
  rw [strReplaceAll_skip "/osb/session/event?session_id=" _ "${Y}" vy (by decide) (by decide)]
  rw [strReplaceAll_skip_noChar '$' escSid _ "${Y}" vy (by decide) (by decide) hS]
  rw [strReplaceAll_skip "&type=" _ "${Y}" vy (by decide) (by decide)]
  rw [strReplaceAll_skip_noChar '$' typeStr _ "${Y}" vy (by decide) (by decide) hT]
  rw [strReplaceAll_skip "&code=" _ "${Y}" vy (by decide) (by decide)]
  rw [strReplaceAll_noChar_self '$' cs "${Y}" vy (by decide) (by decide) hCS]

/-- Evaluation of the `replaceVars` call of `SessionSendEvent` for a
click event with `char > 0`: `${X}`/`${Y}` receive the coordinate
renderings, and `${CHAR}` again receives `cs`, the rendering of
`code`. -/
theorem replaceVarsEventClickChar (host escSid typeStr cs vx vy : String)
    (hP : noChar '$' host = true) (hS : noChar '$' escSid = true)
    (hT : noChar '$' typeStr = true) (hCS : noChar '$' cs = true)
    (hVX : noChar '$' vx = true) :
    replaceVars (_SESSION_EVENT_URL ++ "&x=${X}&y=${Y}" ++ "&char=${CHAR}")
      ["${PROTHOST}", "${SID}", "${TYPE}", "${KEYCODE}", "${CHAR}", "${X}", "${Y}"]
      [host, escSid, typeStr, cs, cs, vx, vy] =
    host ++ ("/osb/session/event?session_id=" ++ (escSid ++ ("&type=" ++ (typeStr ++
      ("&x=" ++ (vx ++ ("&y=" ++ (vy ++ ("&char=" ++ cs))))))))) := by
  simp only [replaceVars]
  rw [show _SESSION_EVENT_URL ++ "&x=${X}&y=${Y}" ++ "&char=${CHAR}" =
    "${PROTHOST}" ++ "/osb/session/event?session_id=${SID}&type=${TYPE}&x=${X}&y=${Y}&char=${CHAR}"
    from by decide]
  rw [strReplaceAll_front _ _ _ (by decide)]
  rw [strReplaceAll_no_occ
    "/osb/session/event?session_id=${SID}&type=${TYPE}&x=${X}&y=${Y}&char=${CHAR}"
    "${PROTHOST}" host (by decide)]
  rw [strReplaceAll_skip_noChar '$' host _ "${SID}" escSid (by decide) (by decide) hP]
  rw [show ("/osb/session/event?session_id=${SID}&type=${TYPE}&x=${X}&y=${Y}&char=${CHAR}" : String) =
    "/osb/session/event?session_id=" ++ ("${SID}" ++ "&type=${TYPE}&x=${X}&y=${Y}&char=${CHAR}")
    from by decide]
  rw [strReplaceAll_skip "/osb/session/event?session_id=" _ "${SID}" escSid (by decide) (by decide)]
  rw [strReplaceAll_front _ _ _ (by decide)]
  rw [strReplaceAll_no_occ "&type=${TYPE}&x=${X}&y=${Y}&char=${CHAR}" "${SID}" escSid (by decide)]
  rw [strReplaceAll_skip_noChar '$' host _ "${TYPE}" typeStr (by decide) (by decide) hP]
  rw [strReplaceAll_skip "/osb/session/event?session_id=" _ "${TYPE}" typeStr (by decide) (by decide)]
  rw [strReplaceAll_skip_noChar '$' escSid _ "${TYPE}" typeStr (by decide) (by decide) hS]
  rw [show ("&type=${TYPE}&x=${X}&y=${Y}&char=${CHAR}" : String) =
    "&type=" ++ ("${TYPE}" ++ "&x=${X}&y=${Y}&char=${CHAR}") from by decide]
  rw [strReplaceAll_skip "&type=" _ "${TYPE}" typeStr (by decide) (by decide)]
  rw [strReplaceAll_front _ _ _ (by decide)]
  rw [strReplaceAll_no_occ "&x=${X}&y=${Y}&char=${CHAR}" "${TYPE}" typeStr (by decide)]
  rw [strReplaceAll_skip_noChar '$' host _ "${KEYCODE}" cs (by decide) (by decide) hP]
  rw [strReplaceAll_skip "/osb/session/event?session_id=" _ "${KEYCODE}" cs (by decide) (by decide)]
  rw [strReplaceAll_skip_noChar '$' escSid _ "${KEYCODE}" cs (by decide) (by decide) hS]
  rw [strReplaceAll_skip "&type=" _ "${KEYCODE}" cs (by decide) (by decide)]
  rw [strReplaceAll_skip_noChar '$' typeStr _ "${KEYCODE}" cs (by decide) (by decide) hT]
  rw [strReplaceAll_no_occ "&x=${X}&y=${Y}&char=${CHAR}" "${KEYCODE}" cs (by decide)]
  rw [strReplaceAll_skip_noChar '$' host _ "${CHAR}" cs (by decide) (by decide) hP]
  rw [strReplaceAll_skip "/osb/session/event?session_id=" _ "${CHAR}" cs (by decide) (by decide)]
  rw [strReplaceAll_skip_noChar '$' escSid _ "${CHAR}" cs (by decide) (by decide) hS]
  rw [strReplaceAll_skip "&type=" _ "${CHAR}" cs (by decide) (by decide)]
  rw [strReplaceAll_skip_noChar '$' typeStr _ "${CHAR}" cs (by decide) (by decide) hT]
  rw [show ("&x=${X}&y=${Y}&char=${CHAR}" : String) =
    "&x=${X}&y=${Y}&char=" ++ "${CHAR}" from by decide]
  rw [strReplaceAll_skip "&x=${X}&y=${Y}&char=" _ "${CHAR}" cs (by decide) (by decide)]
  rw [strReplaceAll_self "${CHAR}" cs (by decide)]
  rw [strReplaceAll_skip_noChar '$' host _ "${X}" vx (by decide) (by decide) hP]
  rw [strReplaceAll_skip "/osb/session/event?session_id=" _ "${X}" vx (by decide) (by decide)]
  rw [strReplaceAll_skip_noChar '$' escSid _ "${X}" vx (by decide) (by decide) hS]
  rw [strReplaceAll_skip "&type=" _ "${X}" vx (by decide) (by decide)]
  rw [strReplaceAll_skip_noChar '$' typeStr _ "${X}" vx (by decide) (by decide) hT]
  rw [show ("&x=${X}&y=${Y}&char=" : String) =
    "&x=" ++ ("${X}" ++ "&y=${Y}&char=") from by decide]
  rw [strAppend_assoc, strAppend_assoc]
  rw [strReplaceAll_skip "&x=" _ "${X}" vx (by decide) (by decide)]
  rw [strReplaceAll_front _ _ _ (by decide)]
  rw [strReplaceAll_skip "&y=${Y}&char=" _ "${X}" vx (by decide) (by decide)]
  rw [strReplaceAll_noChar_self '$' cs "${X}" vx (by decide) (by decide) hCS]
  rw [strReplaceAll_skip_noChar '$' host _ "${Y}" vy (by decide) (by decide) hP]
  rw [strReplaceAll_skip "/osb/session/event?session_id=" _ "${Y}" vy (by decide) (by decide)]
  rw [strReplaceAll_skip_noChar '$' escSid _ "${Y}" vy (by decide) (by decide) hS]
  rw [strReplaceAll_skip "&type=" _ "${Y}" vy (by decide) (by decide)]
  rw [strReplaceAll_skip_noChar '$' typeStr _ "${Y}" vy (by decide) (by decide) hT]
  rw [strReplaceAll_skip "&x=" _ "${Y}" vy (by decide) (by decide)]
  rw [strReplaceAll_skip_noChar '$' vx _ "${Y}" vy (by decide) (by decide) hVX]
  rw [show ("&y=${Y}&char=" : String) = "&y=" ++ ("${Y}" ++ "&char=") from by decide]
  rw [strAppend_assoc, strAppend_assoc]
  rw [strReplaceAll_skip "&y=" _ "${Y}" vy (by decide) (by decide)]
  rw [strReplaceAll_front _ _ _ (by decide)]
  rw [strReplaceAll_skip "&char=" _ "${Y}" vy (by decide) (by decide)]
  rw [strReplaceAll_noChar_self '$' cs "${Y}" vy (by decide) (by decide) hCS]

/-- As `replaceVarsEventClickChar`, for `char ≤ 0` (no `&char`
clause). -/
theorem replaceVarsEventClickNoChar (host escSid typeStr cs vx vy : String)
    (hP : noChar '$' host = true) (hS : noChar '$' escSid = true)
    (hT : noChar '$' typeStr = true)
    (hVX : noChar '$' vx = true) :
    replaceVars (_SESSION_EVENT_URL ++ "&x=${X}&y=${Y}")
      ["${PROTHOST}", "${SID}", "${TYPE}", "${KEYCODE}", "${CHAR}", "${X}", "${Y}"]
      [host, escSid, typeStr, cs, cs, vx, vy] =
    host ++ ("/osb/session/event?session_id=" ++ (escSid ++ ("&type=" ++ (typeStr ++
      ("&x=" ++ (vx ++ ("&y=" ++ vy))))))) := by
  simp only [replaceVars]
  rw [show _SESSION_EVENT_URL ++ "&x=${X}&y=${Y}" =
    "${PROTHOST}" ++ "/osb/session/event?session_id=${SID}&type=${TYPE}&x=${X}&y=${Y}"
    from by decide]
  rw [strReplaceAll_front _ _ _ (by decide)]
  rw [strReplaceAll_no_occ
    "/osb/session/event?session_id=${SID}&type=${TYPE}&x=${X}&y=${Y}"
    "${PROTHOST}" host (by decide)]
  rw [strReplaceAll_skip_noChar '$' host _ "${SID}" escSid (by decide) (by decide) hP]
  rw [show ("/osb/session/event?session_id=${SID}&type=${TYPE}&x=${X}&y=${Y}" : String) =
    "/osb/session/event?session_id=" ++ ("${SID}" ++ "&type=${TYPE}&x=${X}&y=${Y}")
    from by decide]
  rw [strReplaceAll_skip "/osb/session/event?session_id=" _ "${SID}" escSid (by decide) (by decide)]
  rw [strReplaceAll_front _ _ _ (by decide)]
  rw [strReplaceAll_no_occ "&type=${TYPE}&x=${X}&y=${Y}" "${SID}" escSid (by decide)]
  rw [strReplaceAll_skip_noChar '$' host _ "${TYPE}" typeStr (by decide) (by decide) hP]
  rw [strReplaceAll_skip "/osb/session/event?session_id=" _ "${TYPE}" typeStr (by decide) (by decide)]
  rw [strReplaceAll_skip_noChar '$' escSid _ "${TYPE}" typeStr (by decide) (by decide) hS]
  rw [show ("&type=${TYPE}&x=${X}&y=${Y}" : String) =
    "&type=" ++ ("${TYPE}" ++ "&x=${X}&y=${Y}") from by decide]
  rw [strReplaceAll_skip "&type=" _ "${TYPE}" typeStr (by decide) (by decide)]
  rw [strReplaceAll_front _ _ _ (by decide)]
  rw [strReplaceAll_no_occ "&x=${X}&y=${Y}" "${TYPE}" typeStr (by decide)]
  rw [strReplaceAll_skip_noChar '$' host _ "${KEYCODE}" cs (by decide) (by decide) hP]
  rw [strReplaceAll_skip "/osb/session/event?session_id=" _ "${KEYCODE}" cs (by decide) (by decide)]
  rw [strReplaceAll_skip_noChar '$' escSid _ "${KEYCODE}" cs (by decide) (by decide) hS]
  rw [strReplaceAll_skip "&type=" _ "${KEYCODE}" cs (by decide) (by decide)]
  rw [strReplaceAll_skip_noChar '$' typeStr _ "${KEYCODE}" cs (by decide) (by decide) hT]
  rw [strReplaceAll_no_occ "&x=${X}&y=${Y}" "${KEYCODE}" cs (by decide)]
  rw [strReplaceAll_skip_noChar '$' host _ "${CHAR}" cs (by decide) (by decide) hP]
  rw [strReplaceAll_skip "/osb/session/event?session_id=" _ "${CHAR}" cs (by decide) (by decide)]
  rw [strReplaceAll_skip_noChar '$' escSid _ "${CHAR}" cs (by decide) (by decide) hS]
  rw [strReplaceAll_skip "&type=" _ "${CHAR}" cs (by decide) (by decide)]
  rw [strReplaceAll_skip_noChar '$' typeStr _ "${CHAR}" cs (by decide) (by decide) hT]
  rw [strReplaceAll_no_occ "&x=${X}&y=${Y}" "${CHAR}" cs (by decide)]
  rw [strReplaceAll_skip_noChar '$' host _ "${X}" vx (by decide) (by decide) hP]
  rw [strReplaceAll_skip "/osb/session/event?session_id=" _ "${X}" vx (by decide) (by decide)]
  rw [strReplaceAll_skip_noChar '$' escSid _ "${X}" vx (by decide) (by decide) hS]
  rw [strReplaceAll_skip "&type=" _ "${X}" vx (by decide) (by decide)]
  rw [strReplaceAll_skip_noChar '$' typeStr _ "${X}" vx (by decide) (by decide) hT]
  rw [show ("&x=${X}&y=${Y}" : String) = "&x=" ++ ("${X}" ++ "&y=${Y}") from by decide]
  rw [strReplaceAll_skip "&x=" _ "${X}" vx (by decide) (by decide)]
  rw [strReplaceAll_front _ _ _ (by decide)]
  rw [strReplaceAll_no_occ "&y=${Y}" "${X}" vx (by decide)]
  rw [strReplaceAll_skip_noChar '$' host _ "${Y}" vy (by decide) (by decide) hP]
  rw [strReplaceAll_skip "/osb/session/event?session_id=" _ "${Y}" vy (by decide) (by decide)]
  rw [strReplaceAll_skip_noChar '$' escSid _ "${Y}" vy (by decide) (by decide) hS]
  rw [strReplaceAll_skip "&type=" _ "${Y}" vy (by decide) (by decide)]
  rw [strReplaceAll_skip_noChar '$' typeStr _ "${Y}" vy (by decide) (by decide) hT]
  rw [strReplaceAll_skip "&x=" _ "${Y}" vy (by decide) (by decide)]
  rw [strReplaceAll_skip_noChar '$' vx _ "${Y}" vy (by decide) (by decide) hVX]
  rw [show ("&y=${Y}" : String) = "&y=" ++ "${Y}" from by decide]
  rw [strReplaceAll_skip "&y=" _ "${Y}" vy (by decide) (by decide)]
  rw [strReplaceAll_self "${Y}" vy (by decide)]

/-- C9 counterexample to the claim as stated: sending a `key` event
with `code = 65` and `char = 97` produces a URL whose `char` parameter
carries `65` — the code argument — and nowhere carries `97`, the char
argument it was claimed to carry. -/
theorem C9_counterexample :
    SessionSendEvent ctxDemo "key" 65 97 0 0 =
      .ok "https://example.com/osb/session/event?session_id=s1&type=key&code=65&char=65" ∧
    strContains
      "https://example.com/osb/session/event?session_id=s1&type=key&code=65&char=65"
      "char=65" = true ∧
    strContains
      "https://example.com/osb/session/event?session_id=s1&type=key&code=65&char=65"
      "97" = false := by
  refine ⟨by decide, by decide, by decide⟩

/-- C9 (amended): for any session context whose host and escaped
session id contain no `'$'` (so they cannot capture the replacement
tokens) and any arguments, `SessionSendEvent` behaves as follows.  For
a (case-insensitively) key-type event the URL carries
`code=<code>` and, exactly when `char > 0`, a `char` parameter that
also carries the **code** argument — the source substitutes
`codeString` for both `${KEYCODE}` and `${CHAR}`, the char argument
only gating the parameter's presence.  For `click` the URL carries the
`x` and `y` arguments (plus the same `char` clause when `char > 0`).
Any other event type yields the error `"Invalid event type: <type>"`
with no HTTP request issued. -/
theorem C9_send_event_amended (ctx : SessionContext) (t : String)
    (code ch x y : Int)
    (hP : noChar '$' ctx.ServerProtocolHost = true)
    (hS : noChar '$' (queryEscape ctx.SessionId) = true) :
    (goToLower t = "key" ∨ goToLower t = "keydown" ∨ goToLower t = "keyup" →
      SessionSendEvent ctx t code ch x y = .ok
        (ctx.ServerProtocolHost ++ ("/osb/session/event?session_id=" ++
          (queryEscape ctx.SessionId ++ ("&type=" ++ (goToLower t ++
          ("&code=" ++ (itoa code ++
            (if ch > 0 then "&char=" ++ itoa code else ""))))))))) ∧
    (goToLower t = "click" →
      SessionSendEvent ctx t code ch x y = .ok
        (ctx.ServerProtocolHost ++ ("/osb/session/event?session_id=" ++
          (queryEscape ctx.SessionId ++ ("&type=" ++ (goToLower t ++
          ("&x=" ++ (itoa x ++ ("&y=" ++ (itoa y ++
            (if ch > 0 then "&char=" ++ itoa code else "")))))))))))  ∧
    (goToLower t ≠ "key" → goToLower t ≠ "keydown" → goToLower t ≠ "keyup" →
      goToLower t ≠ "click" →
      SessionSendEvent ctx t code ch x y =
        .error ("Invalid event type: " ++ goToLower t)) := by
  refine ⟨?_, ?_, ?_⟩
  · intro h
    rcases h with h | h | h <;>
    · simp only [SessionSendEvent, h]
      rw [if_pos (by simp)]
      by_cases hch : ch > 0
      · rw [if_pos hch, if_pos hch]
        refine congrArg Except.ok ?_
        exact replaceVarsEventKeyChar ctx.ServerProtocolHost
          (queryEscape ctx.SessionId) _ (itoa code) (itoa x) (itoa y)
          hP hS (by decide) (itoa_noChar_dollar code)
      · rw [if_neg hch, if_neg hch]
        refine congrArg Except.ok ?_
        rw [replaceVarsEventKeyNoChar ctx.ServerProtocolHost
          (queryEscape ctx.SessionId) _ (itoa code) (itoa x) (itoa y)
          hP hS (by decide) (itoa_noChar_dollar code)]
        rw [strAppend_empty]
  · intro h
    simp only [SessionSendEvent, h]
    rw [if_neg (by simp)]
    rw [if_pos trivial]
    by_cases hch : ch > 0
    · rw [if_pos hch, if_pos hch]
      refine congrArg Except.ok ?_
      exact replaceVarsEventClickChar ctx.ServerProtocolHost
        (queryEscape ctx.SessionId) _ (itoa code) (itoa x) (itoa y)
        hP hS (by decide) (itoa_noChar_dollar code) (itoa_noChar_dollar x)
    · rw [if_neg hch, if_neg hch]
      refine congrArg Except.ok ?_
      rw [replaceVarsEventClickNoChar ctx.ServerProtocolHost
        (queryEscape ctx.SessionId) _ (itoa code) (itoa x) (itoa y)
        hP hS (by decide) (itoa_noChar_dollar x)]
      rw [strAppend_empty]
  · intro h1 h2 h3 h4
    simp only [SessionSendEvent]
    rw [if_neg (by simp [h1, h2, h3])]
    rw [if_neg h4]

/-- C9 witness: the amended behaviour at concrete inputs — a
mixed-case `KeyDown` with `char = 97` yielding `code=65&char=65`, a
`click` without a char clause, and a rejected `hover` event. -/
theorem C9_witness :
    SessionSendEvent ctxDemo "KeyDown" 65 97 10 20 =
      .ok "https://example.com/osb/session/event?session_id=s1&type=keydown&code=65&char=65" ∧
    SessionSendEvent ctxDemo "click" 65 0 10 20 =
      .ok "https://example.com/osb/session/event?session_id=s1&type=click&x=10&y=20" ∧
    SessionSendEvent ctxDemo "hover" 65 0 10 20 =
      .error "Invalid event type: hover" := by
  refine ⟨?_, ?_, ?_⟩
  · have h := (C9_send_event_amended ctxDemo "KeyDown" 65 97 10 20
      (by decide) (by decide)).1 (Or.inr (Or.inl (by decide)))
    exact h.trans (by decide)
  · have h := (C9_send_event_amended ctxDemo "click" 65 0 10 20
      (by decide) (by decide)).2.1 (by decide)
    exact h.trans (by decide)
  · have h := (C9_send_event_amended ctxDemo "hover" 65 0 10 20
      (by decide) (by decide)).2.2 (by decide) (by decide) (by decide) (by decide)
    exact h.trans (by decide)

/-! ### Claim C10 -/

/-- C10: `SessionStart` is atomic on failure — when the start request
(or the JSON decode of its response, both folded into `apiResult`)
fails, it returns a nil context with that error, leaves the session
registry untouched and spawns no control-channel task; on success the
returned context carries the server-assigned session id, is registered
in the registry under that id, and the registration action precedes the
control-channel spawn. -/
theorem C10_session_start_atomicity (apiResult : Except String SessionStartResp)
    (registry : List (String × SessionContext)) (host : String) :
    (∀ e, apiResult = .error e →
      SessionStart apiResult registry host =
        { ctx := none, err := some e, registry := registry, actions := [] }) ∧
    (∀ resp, apiResult = .ok resp →
      ∃ c, SessionStart apiResult registry host =
          { ctx := some c, err := none,
            registry := (resp.SessionID, c) :: registry,
            actions := [.registerSession resp.SessionID,
              .spawnControlChannel resp.SessionID] } ∧
        c.SessionId = resp.SessionID ∧
        (SessionStart apiResult registry host).registry.lookup resp.SessionID = some c) := by
  constructor
  · intro e he
    rw [he]
    rfl
  · intro resp hr
    refine ⟨⟨resp.SessionID, host, false⟩, ?_, rfl, ?_⟩
    · rw [hr]
      rfl
    · rw [hr]
      simp [SessionStart, List.lookup]

/-- C10 witness: a failing start request leaves everything untouched;
a successful one registers the context under the returned session id
before spawning the control channel. -/
theorem C10_witness :
    SessionStart (.error "connection refused") [] "https://example.com" =
      { ctx := none, err := some "connection refused", registry := [], actions := [] } ∧
    (∃ c, SessionStart (.ok ⟨"s1"⟩) [] "https://example.com" =
        { ctx := some c, err := none, registry := [("s1", c)],
          actions := [.registerSession "s1", .spawnControlChannel "s1"] } ∧
      c.SessionId = "s1" ∧
      (SessionStart (.ok ⟨"s1"⟩) [] "https://example.com").registry.lookup "s1" = some c) :=
  ⟨(C10_session_start_atomicity (.error "connection refused") [] "https://example.com").1
      "connection refused" rfl,
   (C10_session_start_atomicity (.ok ⟨"s1"⟩) [] "https://example.com").2 ⟨"s1"⟩ rfl⟩

end Appflinger
